import Mathlib

/-!
# Verification of the korean-law-mcp caching / retry / credential core

Shallow embedding of `src/tools.py` (the caching + retry + credential-resolution
core of the korean-law-mcp server).  Python dictionaries that carry result
records are embedded as association lists `List (String × String)`; the global
TTL caches are embedded as explicit association lists carrying an expiry
timestamp, threaded through the operations as state; the HTTP transport is
embedded as a function from the attempt index (within one operation call) to
the outcome of that GET; XML documents are embedded by their parse tree
(`XmlElem`), a malformed body by `none`.  Each operation returns, besides its
result and the updated cache state, the list of upstream requests it issued,
so that "no transport call is made" is a statement about the returned trace.

Capacity-based eviction of the `cachetools.TTLCache` stores (maxsize) is not
modelled: the properties proved here concern lookup/insert/TTL behaviour only,
which is unaffected by LRU eviction of *other* keys.
-/

set_option linter.unusedVariables false

namespace LawMcp

/-- `DEFAULT_LAW_API_URL` from `tools.py`. -/
def DEFAULT_LAW_API_URL : String := "https://www.law.go.kr/DRF"

/-- The relevant slice of a process environment / override env mapping:
the two keys `LAW_API_KEY` and `LAW_API_URL`, each possibly absent. -/
structure EnvMap where
  LAW_API_KEY : Option String
  LAW_API_URL : Option String
deriving Repr, DecidableEq

/-- The `arguments` dict passed to the tools: it may carry an `env` mapping. -/
structure Arguments where
  env : Option EnvMap
deriving Repr, DecidableEq

/-- Resolved credentials, the return value of `get_credentials`. -/
structure Credentials where
  LAW_API_KEY : String
  LAW_API_URL : String
deriving Repr, DecidableEq

/-- `get_credentials` from `tools.py`: start from `api_key = ""` and
`api_url = DEFAULT_LAW_API_URL`; an `arguments.env` entry overwrites them;
then `if not api_key:` fall back to the process environment, and
`if not api_url or api_url == DEFAULT_LAW_API_URL:` fall back to the process
environment for the URL as well. -/
def get_credentials (processEnv : EnvMap) (arguments : Option Arguments) :
    Credentials :=
  let api_key := ""
  let api_url := DEFAULT_LAW_API_URL
  let fromArgs :=
    match arguments with
    | some args =>
      match args.env with
      | some env =>
        (match env.LAW_API_KEY with | some k => k | none => api_key,
         match env.LAW_API_URL with | some u => u | none => api_url)
      | none => (api_key, api_url)
    | none => (api_key, api_url)
  let api_key := fromArgs.1
  let api_url := fromArgs.2
  let api_key := if api_key = "" then (processEnv.LAW_API_KEY).getD "" else api_key
  let api_url :=
    if api_url = "" ∨ api_url = DEFAULT_LAW_API_URL then
      (processEnv.LAW_API_URL).getD DEFAULT_LAW_API_URL
    else api_url
  { LAW_API_KEY := api_key, LAW_API_URL := api_url }

/-- The key-masking expression of `get_credentials`:
`masked_key[:6] + "***" + f"({len(masked_key)} chars)"` (applied only when the
key is non-empty). -/
def maskKey (key : String) : String :=
  key.take 6 ++ "***" ++ "(" ++ toString key.length ++ " chars)"

/-! ## XML model

`xml.etree.ElementTree` elements: a tag, an optional text node, and an ordered
list of child elements.  `parse_xml_response` either yields the root element of
a well-formed document or `None`; we embed an HTTP response body by its parse
outcome (`Option XmlElem`). -/

mutual

/-- An XML element: tag, optional text, children in document order.
(The child sequence is its own inductive `XmlForest` rather than
`List XmlElem`, so that the descendant traversal below is mutually structural
and computes inside the kernel.) -/
inductive XmlElem where
  | node (tag : String) (text : Option String) (children : XmlForest)
deriving Repr

/-- A sequence of sibling XML elements in document order. -/
inductive XmlForest where
  | nil
  | cons (head : XmlElem) (tail : XmlForest)
deriving Repr

end

/-- Build a forest from a list of elements. -/
def XmlForest.ofList : List XmlElem → XmlForest
  | [] => .nil
  | c :: rest => .cons c (XmlForest.ofList rest)

/-- Flatten a forest back into a list of its roots. -/
def XmlForest.toList : XmlForest → List XmlElem
  | .nil => []
  | .cons c rest => c :: rest.toList

/-- The tag of an element. -/
def XmlElem.tag : XmlElem → String
  | .node t _ _ => t

/-- The `.text` attribute of an element. -/
def XmlElem.textOf : XmlElem → Option String
  | .node _ tx _ => tx

/-- The direct children of an element, as a list. -/
def XmlElem.childrenList : XmlElem → List XmlElem
  | .node _ _ cs => cs.toList

mutual

/-- All proper descendants of an element in document order: what the path
`.//tag` ranges over (the element itself is excluded). -/
def XmlElem.descendants : XmlElem → List XmlElem
  | .node _ _ cs => cs.descList

/-- Descendant enumeration of a forest: each root followed by its own
descendants, in document order. -/
def XmlForest.descList : XmlForest → List XmlElem
  | .nil => []
  | .cons c rest => c :: (c.descendants ++ rest.descList)

end

/-- `root.findall(".//name")`: all descendants with the given tag. -/
def XmlElem.findallDesc (root : XmlElem) (name : String) : List XmlElem :=
  root.descendants.filter (fun e => e.tag = name)

/-- `elem.findtext(name, default)` for a plain child-tag path: the text of the
first direct child with that tag (an element with `text=None` yields `""`), or
the default when no such child exists. -/
def XmlElem.findtextChild (elem : XmlElem) (name default : String) : String :=
  match elem.childrenList.find? (fun e => e.tag = name) with
  | some e => e.textOf.getD ""
  | none => default

/-- `root.findtext(".//name", default)`: the text of the first descendant with
that tag, or the default when there is none. -/
def XmlElem.findtextDesc (root : XmlElem) (name default : String) : String :=
  match root.descendants.find? (fun e => e.tag = name) with
  | some e => e.textOf.getD ""
  | none => default

/-- Strip leading and trailing whitespace from a character list. -/
def pyTrim (cs : List Char) : List Char :=
  ((cs.dropWhile Char.isWhitespace).reverse.dropWhile Char.isWhitespace).reverse

/-- Accumulator loop of decimal parsing: `none` on the first non-digit. -/
def pyDigitsAux : List Char → Nat → Option Nat
  | [], acc => some acc
  | c :: rest, acc =>
    if c.isDigit then pyDigitsAux rest (acc * 10 + (c.toNat - 48)) else none

/-- A non-empty all-digit run parsed as a natural number. -/
def pyDigits (cs : List Char) : Option Nat :=
  match cs with
  | [] => none
  | _ => pyDigitsAux cs 0

/-- Python `int(s)` on a string, as a partial function: optional surrounding
whitespace, an optional sign, then a non-empty digit run.  (CPython also
accepts digit-group underscores, which no `totalCnt` payload uses; a failing
parse raises `ValueError`, modelled as `none`.) -/
def pyInt (s : String) : Option Int :=
  match pyTrim s.data with
  | '-' :: rest => (pyDigits rest).map (fun n => -(n : Int))
  | '+' :: rest => (pyDigits rest).map (fun n => (n : Int))
  | cs => (pyDigits cs).map (fun n => (n : Int))

/-! ## Retrying HTTP fetcher

`make_request_with_retry` performs up to `max_retries` GETs.  The transport is
a function from the attempt index (0-based, within one operation call) to the
outcome of that GET, where a "success" is a 2xx response carrying a body (its
parse outcome); `raise_for_status` on a non-2xx response as well as any other
non-transient `RequestException` is the `otherError` outcome. -/

/-- Outcome of one `requests.get` (after `raise_for_status`). -/
inductive AttemptOutcome where
  | timeout
  | connError
  | otherError
  | success (body : Option XmlElem)
deriving Repr

/-- The exception classes `make_request_with_retry` can raise. -/
inductive FetchError where
  | timeout
  | connError
  | otherError
  | noAttempts
deriving Repr, DecidableEq

/-- Result of the retry loop: the returned response or raised error, the
number of transport invocations actually performed, and the list of back-off
waits (in seconds) slept between attempts. -/
structure RetryResult where
  outcome : Except FetchError (Option XmlElem)
  attempts : Nat
  waits : List Nat
deriving Repr

/-- The loop body of `make_request_with_retry`, at attempt index `attempt`
with `fuel = max_retries - attempt` attempts remaining: a success or a
non-retryable error returns at once; a timeout/connection error sleeps
`(attempt+1)*1` seconds and retries while further attempts remain, else the
last such failure is raised.  `acc` collects the waits already slept
(reversed); `fuel = 0` (only possible with `max_retries = 0`) raises the
generic `RequestException`. -/
def retryGo (transport : Nat → AttemptOutcome) :
    Nat → Nat → List Nat → RetryResult
  | 0, attempt, acc => ⟨.error .noAttempts, attempt, acc.reverse⟩
  | fuel + 1, attempt, acc =>
    match transport attempt with
    | .success body => ⟨.ok body, attempt + 1, acc.reverse⟩
    | .otherError => ⟨.error .otherError, attempt + 1, acc.reverse⟩
    | .timeout =>
      match fuel with
      | 0 => ⟨.error .timeout, attempt + 1, acc.reverse⟩
      | _ + 1 => retryGo transport fuel (attempt + 1) ((attempt + 1) * 1 :: acc)
    | .connError =>
      match fuel with
      | 0 => ⟨.error .connError, attempt + 1, acc.reverse⟩
      | _ + 1 => retryGo transport fuel (attempt + 1) ((attempt + 1) * 1 :: acc)

/-- `make_request_with_retry(url, params, max_retries, timeout)`, abstracted
over the transport.  The url/params are fixed across attempts and are tracked
by the caller, so only the attempt-indexed outcomes matter here. -/
def make_request_with_retry (transport : Nat → AttemptOutcome)
    (max_retries : Nat := 3) : RetryResult :=
  retryGo transport max_retries 0 []

/-- Is an outcome in the transient (retried) class, i.e. a
`requests.exceptions.Timeout` or `requests.exceptions.ConnectionError`? -/
def AttemptOutcome.transientErr : AttemptOutcome → Option FetchError
  | .timeout => some .timeout
  | .connError => some .connError
  | _ => none

/-- `str(e)` of a fetch exception, abstracted to its class: the exact
exception text is transport-specific and only ever interpolated into error
messages, never branched on. -/
def fetchErrorStr : FetchError → String
  | .timeout => "Timeout"
  | .connError => "ConnectionError"
  | .otherError => "RequestException"
  | .noAttempts => "모든 재시도가 실패했습니다."

/-! ## TTL caches

`cachetools.TTLCache` as used here: lookup ignores entries whose expiry time
(insertion time + ttl) has been reached; insertion (re)binds the key with a
fresh expiry.  (LRU/capacity eviction is not modelled, see the header.) -/

/-- One TTL-cache entry: key, value, absolute expiry time (seconds). -/
structure CEntry (κ ν : Type) where
  key : κ
  val : ν
  expire : Nat
deriving Repr, DecidableEq

/-- TTL lookup at time `now`: the value bound to `k`, unless expired
(an entry is alive while `now < expire`). -/
def cacheLookup {κ ν : Type} [DecidableEq κ] (c : List (CEntry κ ν))
    (now : Nat) (k : κ) : Option ν :=
  match c.find? (fun e => decide (e.key = k) && decide (now < e.expire)) with
  | some e => some e.val
  | none => none

/-- TTL insert at time `now`: bind `k` to `v` with expiry `now + ttl`,
dropping any previous binding of `k`. -/
def cacheInsert {κ ν : Type} [DecidableEq κ] (c : List (CEntry κ ν))
    (now ttl : Nat) (k : κ) (v : ν) : List (CEntry κ ν) :=
  ⟨k, v, now + ttl⟩ :: c.filter (fun e => !(decide (e.key = k)))

/-- Success-cache TTL (`ttl=86400`, 24 h). -/
def SUCCESS_TTL : Nat := 86400

/-- Failure-cache TTL (`ttl=300`, 5 min). -/
def FAILURE_TTL : Nat := 300

/-- Keys of the shared `failure_cache`.  In Python these are tuples of
differing arity — `(query, page, page_size)` for law search, `(law_id,)` for
law detail, `(query, page, page_size, court)` for precedent search — which can
never collide across operations; the constructor tag records the arity. -/
inductive FailKey where
  | law (query : String) (page page_size : Int)
  | lawDetail (law_id : String)
  | prec (query : String) (page page_size : Int) (court : Option String)
deriving Repr, DecidableEq

/-! ## Result shapes

A Python result dict either carries an `"error"` key (and nothing else) or is
a success payload; records projected out of XML are embedded as association
lists so that "the record contains every key of the field list" is a real
statement about key presence. -/

/-- An operation result: a success payload or an `{"error": msg}` dict. -/
inductive OpResult (α : Type) where
  | ok (payload : α)
  | error (msg : String)
deriving Repr, DecidableEq

/-- A projected record: a Python dict with string keys and string values,
in insertion order. -/
abbrev RecordDict := List (String × String)

/-- Success payload of `search_law`:
`{"total": int, "page": page, "page_size": page_size, "laws": [...]}`. -/
structure LawOk where
  total : Int
  page : Int
  page_size : Int
  laws : List RecordDict
deriving Repr, DecidableEq

/-- Success payload of `search_precedent`. -/
structure PrecOk where
  total : Int
  page : Int
  page_size : Int
  precedents : List RecordDict
deriving Repr, DecidableEq

/-- Success payload of `search_administrative_rule`. -/
structure AdmrulOk where
  total : Int
  page : Int
  page_size : Int
  rules : List RecordDict
deriving Repr, DecidableEq

/-- Success payload of `get_law_detail`: the six scalar fields of `law_info`,
plus the `"조문"` article list and the `"조문수"` count. -/
structure LawDetailOk where
  info : RecordDict
  articles : List RecordDict
  article_count : Nat
deriving Repr, DecidableEq

/-- The mutable module-level cache state of `tools.py`. -/
structure OpState where
  law_cache : List (CEntry (String × Int × Int) LawOk)
  precedent_cache : List (CEntry (String × Int × Int × Option String) PrecOk)
  detail_cache : List (CEntry String LawDetailOk)
  failure_cache : List (CEntry FailKey String)
deriving Repr, DecidableEq

/-- The empty cache state (module load time). -/
def OpState.empty : OpState := ⟨[], [], [], []⟩

/-- Ambient context of one operation call: the current time, the process
environment, and the transport (outcome of the i-th GET issued by this call). -/
structure OpCtx where
  now : Nat
  env : EnvMap
  transport : Nat → AttemptOutcome

/-- The query-parameter dict of one upstream GET (plus the url), covering the
parameter names used by the five operations. -/
structure ReqParams where
  url : String
  OC : String
  target : String
  type : String
  query : Option String := none
  display : Option Int := none
  page : Option Int := none
  MST : Option String := none
  ID : Option String := none
deriving Repr, DecidableEq

/-- Output of one operation call: the result, the updated cache state, and
the upstream requests issued (one entry per `requests.get` invocation). -/
structure OpOut (α : Type) where
  result : OpResult α
  state : OpState
  requests : List ReqParams
deriving Repr, DecidableEq

/-! ## Field lists and projections -/

/-- The hardcoded field list of a `law` search record: result-dict key paired
with the XML child tag it is read from. -/
def lawFieldPairs : List (String × String) :=
  [("법령ID", "법령ID"), ("법령명", "법령명한글"), ("법령명_약칭", "법령약칭명"),
   ("법령구분", "법령구분명"), ("소관부처", "소관부처명"), ("공포일자", "공포일자"),
   ("공포번호", "공포번호"), ("시행일자", "시행일자"), ("제개정구분", "제개정구분명")]

/-- The `law_data` dict built for one `<law>` element: each field is
`law.findtext(tag, "")`. -/
def projectLaw (law : XmlElem) : RecordDict :=
  lawFieldPairs.map (fun p => (p.1, law.findtextChild p.2 ""))

/-- The hardcoded field list of a `prec` search record (dict key = XML tag). -/
def precFieldPairs : List (String × String) :=
  [("판례일련번호", "판례일련번호"), ("사건명", "사건명"), ("사건번호", "사건번호"),
   ("선고일자", "선고일자"), ("선고", "선고"), ("법원명", "법원명"),
   ("사건종류명", "사건종류명"), ("판시사항", "판시사항"), ("판결요지", "판결요지")]

/-- The `prec_data` dict built for one `<prec>` element. -/
def projectPrec (prec : XmlElem) : RecordDict :=
  precFieldPairs.map (fun p => (p.1, prec.findtextChild p.2 ""))

/-- The hardcoded field list of an `admrul` search record. -/
def admrulFieldPairs : List (String × String) :=
  [("행정규칙ID", "행정규칙ID"), ("행정규칙명", "행정규칙명"),
   ("소관부처", "소관부처명"), ("제정일자", "제정일자"), ("시행일자", "시행일자")]

/-- The `rule_data` dict built for one `<admrul>` element. -/
def projectAdmrul (rule : XmlElem) : RecordDict :=
  admrulFieldPairs.map (fun p => (p.1, rule.findtextChild p.2 ""))

/-- The article dict built for one `<조문>` element of a law detail. -/
def projectArticle (article : XmlElem) : RecordDict :=
  [("조문번호", article.findtextChild "조문번호" ""),
   ("조문제목", article.findtextChild "조문제목" ""),
   ("조문내용", article.findtextChild "조문내용" "")]

/-- The scalar `law_info` fields of a law detail (deep `.//` lookups). -/
def lawDetailInfo (root : XmlElem) : RecordDict :=
  [("법령ID", root.findtextDesc "법령ID" ""),
   ("법령명", root.findtextDesc "법령명한글" ""),
   ("법령구분", root.findtextDesc "법령구분명" ""),
   ("소관부처", root.findtextDesc "소관부처명" ""),
   ("공포일자", root.findtextDesc "공포일자" ""),
   ("시행일자", root.findtextDesc "시행일자" "")]

/-- The `prec_info` dict of a precedent detail (deep `.//` lookups). -/
def precDetailInfo (root : XmlElem) : RecordDict :=
  [("판례일련번호", root.findtextDesc "판례일련번호" ""),
   ("사건명", root.findtextDesc "사건명" ""),
   ("사건번호", root.findtextDesc "사건번호" ""),
   ("선고일자", root.findtextDesc "선고일자" ""),
   ("선고", root.findtextDesc "선고" ""),
   ("법원명", root.findtextDesc "법원명" ""),
   ("사건종류명", root.findtextDesc "사건종류명" ""),
   ("판시사항", root.findtextDesc "판시사항" ""),
   ("판결요지", root.findtextDesc "판결요지" ""),
   ("참조조문", root.findtextDesc "참조조문" ""),
   ("참조판례", root.findtextDesc "참조판례" ""),
   ("판례내용", root.findtextDesc "판례내용" "")]

/-- The `laws` list extracted in `_search_law_impl`:
`for law in root.findall(".//law")`. -/
def searchLawExtract (root : XmlElem) : List RecordDict :=
  (root.findallDesc "law").map projectLaw

/-- The `precedents` list extracted in `_search_precedent_impl`. -/
def searchPrecExtract (root : XmlElem) : List RecordDict :=
  (root.findallDesc "prec").map projectPrec

/-- The `rules` list extracted in `search_administrative_rule`. -/
def searchAdmrulExtract (root : XmlElem) : List RecordDict :=
  (root.findallDesc "admrul").map projectAdmrul

/-! ## Request-parameter dicts -/

/-- The `params` dict of `_search_law_impl` (url `{base_url}/lawSearch.do`):
`display` is `min(page_size, 50)`. -/
def searchLawParams (base_url api_key query : String) (page page_size : Int) :
    ReqParams :=
  { url := base_url ++ "/lawSearch.do", OC := api_key, target := "law",
    type := "XML", query := some query, display := some (min page_size 50),
    page := some page }

/-- The `params` dict of `_search_precedent_impl`. -/
def searchPrecParams (base_url api_key query : String) (page page_size : Int) :
    ReqParams :=
  { url := base_url ++ "/lawSearch.do", OC := api_key, target := "prec",
    type := "XML", query := some query, display := some (min page_size 50),
    page := some page }

/-- The `params` dict of `search_administrative_rule`. -/
def searchAdmrulParams (base_url api_key query : String) (page page_size : Int) :
    ReqParams :=
  { url := base_url ++ "/lawSearch.do", OC := api_key, target := "admrul",
    type := "XML", query := some query, display := some (min page_size 50),
    page := some page }

/-- The `params` dict of `_get_law_detail_impl` (url `{base_url}/lawService.do`). -/
def lawDetailParams (base_url api_key law_id : String) : ReqParams :=
  { url := base_url ++ "/lawService.do", OC := api_key, target := "law",
    type := "XML", MST := some law_id }

/-- The `params` dict of `get_precedent_detail`. -/
def precDetailParams (base_url api_key precedent_id : String) : ReqParams :=
  { url := base_url ++ "/lawService.do", OC := api_key, target := "prec",
    type := "XML", ID := some precedent_id }

/-! ## Error messages -/

/-- Missing-key message of `_search_law_impl`. -/
def MISSING_KEY_MSG_LAW : String :=
  "API 키가 설정되지 않았습니다. LAW_API_KEY 환경 변수를 설정해주세요."

/-- Missing-key message of the other four operations. -/
def MISSING_KEY_MSG : String := "API 키가 설정되지 않았습니다."

/-- Parse-failure message (all operations). -/
def PARSE_FAIL_MSG : String := "응답 파싱 실패"

/-- `f"API 요청 실패: {str(e)}"`. -/
def requestFailMsg (e : FetchError) : String := "API 요청 실패: " ++ fetchErrorStr e

/-- `str(e)` of the `ValueError` raised by `int(total_count)` on a
non-numeric string. -/
def invalidIntStr (s : String) : String :=
  "invalid literal for int() with base 10: " ++ s

/-- Failure class of one single-shot `requests.get` + `raise_for_status`. -/
def AttemptOutcome.fetchErr : AttemptOutcome → Option FetchError
  | .timeout => some .timeout
  | .connError => some .connError
  | .otherError => some .otherError
  | .success _ => none

/-! ## The five operations -/

/-- `_search_law_impl`: failure-cache short-circuit, credential resolution,
missing-key check, retried fetch, parse, projection, `int(totalCnt)`.  Every
error path stores its `{"error": msg}` in the failure cache. -/
def _search_law_impl (ctx : OpCtx) (query : String) (page page_size : Int)
    (arguments : Option Arguments) (s : OpState) : OpOut LawOk :=
  let cache_key : FailKey := .law query page page_size
  match cacheLookup s.failure_cache ctx.now cache_key with
  | some msg => ⟨.error msg, s, []⟩
  | none =>
    let credentials := get_credentials ctx.env arguments
    let api_key := credentials.LAW_API_KEY
    let base_url := credentials.LAW_API_URL
    if api_key = "" then
      ⟨.error MISSING_KEY_MSG_LAW,
       { s with failure_cache :=
           (cacheInsert s.failure_cache ctx.now FAILURE_TTL cache_key
             MISSING_KEY_MSG_LAW) }, []⟩
    else
      let params := searchLawParams base_url api_key query page page_size
      let fetch := make_request_with_retry ctx.transport 3
      let reqs := List.replicate fetch.attempts params
      match fetch.outcome with
      | .error e =>
        let msg := requestFailMsg e
        ⟨.error msg,
         { s with failure_cache :=
             (cacheInsert s.failure_cache ctx.now FAILURE_TTL cache_key msg) },
         reqs⟩
      | .ok none =>
        ⟨.error PARSE_FAIL_MSG,
         { s with failure_cache :=
             (cacheInsert s.failure_cache ctx.now FAILURE_TTL cache_key
               PARSE_FAIL_MSG) }, reqs⟩
      | .ok (some root) =>
        let laws := searchLawExtract root
        let total_count := root.findtextDesc "totalCnt" "0"
        match pyInt total_count with
        | none =>
          let msg := "법령 검색 중 오류 발생: " ++ invalidIntStr total_count
          ⟨.error msg,
           { s with failure_cache :=
               (cacheInsert s.failure_cache ctx.now FAILURE_TTL cache_key msg) },
           reqs⟩
        | some total =>
          ⟨.ok { total := total, page := page, page_size := page_size,
                 laws := laws }, s, reqs⟩

/-- `search_law`: success-cache lookup, then `_search_law_impl`, storing the
result in `law_cache` only when it has no `"error"` key. -/
def search_law (ctx : OpCtx) (query : String) (page page_size : Int)
    (arguments : Option Arguments) (s : OpState) : OpOut LawOk :=
  let cache_key : String × Int × Int := (query, page, page_size)
  match cacheLookup s.law_cache ctx.now cache_key with
  | some cached => ⟨.ok cached, s, []⟩
  | none =>
    let out := _search_law_impl ctx query page page_size arguments s
    match out.result with
    | .ok payload =>
      { out with state :=
          { out.state with law_cache :=
              (cacheInsert out.state.law_cache ctx.now SUCCESS_TTL cache_key
                payload) } }
    | .error _ => out

/-- `_get_law_detail_impl`: like `_search_law_impl` but on
`{base_url}/lawService.do` with key `(law_id,)`, extracting the `law_info`
fields and the `조문` article list (no `int()` conversion). -/
def _get_law_detail_impl (ctx : OpCtx) (law_id : String)
    (arguments : Option Arguments) (s : OpState) : OpOut LawDetailOk :=
  let cache_key : FailKey := .lawDetail law_id
  match cacheLookup s.failure_cache ctx.now cache_key with
  | some msg => ⟨.error msg, s, []⟩
  | none =>
    let credentials := get_credentials ctx.env arguments
    let api_key := credentials.LAW_API_KEY
    let base_url := credentials.LAW_API_URL
    if api_key = "" then
      ⟨.error MISSING_KEY_MSG,
       { s with failure_cache :=
           (cacheInsert s.failure_cache ctx.now FAILURE_TTL cache_key
             MISSING_KEY_MSG) }, []⟩
    else
      let params := lawDetailParams base_url api_key law_id
      let fetch := make_request_with_retry ctx.transport 3
      let reqs := List.replicate fetch.attempts params
      match fetch.outcome with
      | .error e =>
        let msg := requestFailMsg e
        ⟨.error msg,
         { s with failure_cache :=
             (cacheInsert s.failure_cache ctx.now FAILURE_TTL cache_key msg) },
         reqs⟩
      | .ok none =>
        ⟨.error PARSE_FAIL_MSG,
         { s with failure_cache :=
             (cacheInsert s.failure_cache ctx.now FAILURE_TTL cache_key
               PARSE_FAIL_MSG) }, reqs⟩
      | .ok (some root) =>
        let articles := (root.findallDesc "조문").map projectArticle
        ⟨.ok { info := lawDetailInfo root, articles := articles,
               article_count := articles.length }, s, reqs⟩

/-- `get_law_detail`: success-cache wrapper over `_get_law_detail_impl`
(cache `detail_cache`, key `(law_id,)`). -/
def get_law_detail (ctx : OpCtx) (law_id : String)
    (arguments : Option Arguments) (s : OpState) : OpOut LawDetailOk :=
  match cacheLookup s.detail_cache ctx.now law_id with
  | some cached => ⟨.ok cached, s, []⟩
  | none =>
    let out := _get_law_detail_impl ctx law_id arguments s
    match out.result with
    | .ok payload =>
      { out with state :=
          { out.state with detail_cache :=
              (cacheInsert out.state.detail_cache ctx.now SUCCESS_TTL law_id
                payload) } }
    | .error _ => out

/-- `_search_precedent_impl`: like `_search_law_impl` with target `prec` and
key `(query, page, page_size, court)`. -/
def _search_precedent_impl (ctx : OpCtx) (query : String) (page page_size : Int)
    (court : Option String) (arguments : Option Arguments) (s : OpState) :
    OpOut PrecOk :=
  let cache_key : FailKey := .prec query page page_size court
  match cacheLookup s.failure_cache ctx.now cache_key with
  | some msg => ⟨.error msg, s, []⟩
  | none =>
    let credentials := get_credentials ctx.env arguments
    let api_key := credentials.LAW_API_KEY
    let base_url := credentials.LAW_API_URL
    if api_key = "" then
      ⟨.error MISSING_KEY_MSG,
       { s with failure_cache :=
           (cacheInsert s.failure_cache ctx.now FAILURE_TTL cache_key
             MISSING_KEY_MSG) }, []⟩
    else
      let params := searchPrecParams base_url api_key query page page_size
      let fetch := make_request_with_retry ctx.transport 3
      let reqs := List.replicate fetch.attempts params
      match fetch.outcome with
      | .error e =>
        let msg := requestFailMsg e
        ⟨.error msg,
         { s with failure_cache :=
             (cacheInsert s.failure_cache ctx.now FAILURE_TTL cache_key msg) },
         reqs⟩
      | .ok none =>
        ⟨.error PARSE_FAIL_MSG,
         { s with failure_cache :=
             (cacheInsert s.failure_cache ctx.now FAILURE_TTL cache_key
               PARSE_FAIL_MSG) }, reqs⟩
      | .ok (some root) =>
        let precedents := searchPrecExtract root
        let total_count := root.findtextDesc "totalCnt" "0"
        match pyInt total_count with
        | none =>
          let msg := "판례 검색 중 오류 발생: " ++ invalidIntStr total_count
          ⟨.error msg,
           { s with failure_cache :=
               (cacheInsert s.failure_cache ctx.now FAILURE_TTL cache_key msg) },
           reqs⟩
        | some total =>
          ⟨.ok { total := total, page := page, page_size := page_size,
                 precedents := precedents }, s, reqs⟩

/-- `search_precedent`: success-cache wrapper over `_search_precedent_impl`
(cache `precedent_cache`, key `(query, page, page_size, court)`). -/
def search_precedent (ctx : OpCtx) (query : String) (page page_size : Int)
    (court : Option String) (arguments : Option Arguments) (s : OpState) :
    OpOut PrecOk :=
  let cache_key : String × Int × Int × Option String :=
    (query, page, page_size, court)
  match cacheLookup s.precedent_cache ctx.now cache_key with
  | some cached => ⟨.ok cached, s, []⟩
  | none =>
    let out := _search_precedent_impl ctx query page page_size court arguments s
    match out.result with
    | .ok payload =>
      { out with state :=
          { out.state with precedent_cache :=
              (cacheInsert out.state.precedent_cache ctx.now SUCCESS_TTL
                cache_key payload) } }
    | .error _ => out

/-- `get_precedent_detail`: NO cache of any kind and a single plain
`requests.get` (no retry wrapper); the cache state passes through untouched. -/
def get_precedent_detail (ctx : OpCtx) (precedent_id : String)
    (arguments : Option Arguments) (s : OpState) : OpOut RecordDict :=
  let credentials := get_credentials ctx.env arguments
  let api_key := credentials.LAW_API_KEY
  let base_url := credentials.LAW_API_URL
  if api_key = "" then
    ⟨.error MISSING_KEY_MSG, s, []⟩
  else
    let params := precDetailParams base_url api_key precedent_id
    match ctx.transport 0 with
    | .success none => ⟨.error PARSE_FAIL_MSG, s, [params]⟩
    | .success (some root) => ⟨.ok (precDetailInfo root), s, [params]⟩
    | .timeout => ⟨.error (requestFailMsg .timeout), s, [params]⟩
    | .connError => ⟨.error (requestFailMsg .connError), s, [params]⟩
    | .otherError => ⟨.error (requestFailMsg .otherError), s, [params]⟩

/-- `search_administrative_rule`: NO cache of any kind and a single plain
`requests.get` (no retry wrapper); the cache state passes through untouched. -/
def search_administrative_rule (ctx : OpCtx) (query : String)
    (page page_size : Int) (arguments : Option Arguments) (s : OpState) :
    OpOut AdmrulOk :=
  let credentials := get_credentials ctx.env arguments
  let api_key := credentials.LAW_API_KEY
  let base_url := credentials.LAW_API_URL
  if api_key = "" then
    ⟨.error MISSING_KEY_MSG, s, []⟩
  else
    let params := searchAdmrulParams base_url api_key query page page_size
    match ctx.transport 0 with
    | .timeout => ⟨.error (requestFailMsg .timeout), s, [params]⟩
    | .connError => ⟨.error (requestFailMsg .connError), s, [params]⟩
    | .otherError => ⟨.error (requestFailMsg .otherError), s, [params]⟩
    | .success none => ⟨.error PARSE_FAIL_MSG, s, [params]⟩
    | .success (some root) =>
      let rules := searchAdmrulExtract root
      let total_count := root.findtextDesc "totalCnt" "0"
      match pyInt total_count with
      | none =>
        ⟨.error ("행정규칙 검색 중 오류 발생: " ++ invalidIntStr total_count), s,
         [params]⟩
      | some total =>
        ⟨.ok { total := total, page := page, page_size := page_size,
               rules := rules }, s, [params]⟩

/-! ## Spec-side definitions

These definitions follow the specification's words (not the source) and exist
to be compared against the source-derived definitions above. -/

/-- The `LAW_API_KEY` override carried by the `arguments` mapping, if any. -/
def overrideKey (a : Option Arguments) : Option String :=
  match a with
  | some args =>
    match args.env with
    | some e => e.LAW_API_KEY
    | none => none
  | none => none

/-- The `LAW_API_URL` override carried by the `arguments` mapping, if any. -/
def overrideUrl (a : Option Arguments) : Option String :=
  match a with
  | some args =>
    match args.env with
    | some e => e.LAW_API_URL
    | none => none
  | none => none

/-- Spec-side resolution of the API key (amended §4.1): a non-empty override
takes precedence; an empty (falsy) override, or no override, falls back to the
process environment; the final default is the empty string. -/
def spec_resolved_api_key (p : EnvMap) (a : Option Arguments) : String :=
  match overrideKey a with
  | some k => if k = "" then (p.LAW_API_KEY).getD "" else k
  | none => (p.LAW_API_KEY).getD ""

/-- Spec-side resolution of the base URL (amended §4.1): an override takes
precedence unless it is empty or equal to the default constant, in which case
the process environment value is used; the final default is
`DEFAULT_LAW_API_URL`. -/
def spec_resolved_base_url (p : EnvMap) (a : Option Arguments) : String :=
  match overrideUrl a with
  | some u =>
    if u = "" ∨ u = DEFAULT_LAW_API_URL then
      (p.LAW_API_URL).getD DEFAULT_LAW_API_URL
    else u
  | none => (p.LAW_API_URL).getD DEFAULT_LAW_API_URL

/-- The spec's §4.4 cache discipline, verbatim: look up the success cache;
otherwise the failure cache; otherwise run `compute` and store its result in
the success cache exactly when it lacks an `error` field, in the failure cache
otherwise.  Returns the result, the two updated stores, and the requests the
compute step issued. -/
def spec_get_or_compute {κ α : Type} [DecidableEq κ]
    (now : Nat) (succ : List (CEntry κ α)) (fail : List (CEntry FailKey String))
    (sk : κ) (fk : FailKey) (compute : Unit → OpResult α × List ReqParams) :
    OpResult α × (List (CEntry κ α) × List (CEntry FailKey String)) ×
      List ReqParams :=
  match cacheLookup succ now sk with
  | some v => (.ok v, (succ, fail), [])
  | none =>
    match cacheLookup fail now fk with
    | some msg => (.error msg, (succ, fail), [])
    | none =>
      let c := compute ()
      match c.1 with
      | .ok payload =>
        (c.1, (cacheInsert succ now SUCCESS_TTL sk payload, fail), c.2)
      | .error msg =>
        (c.1, (succ, cacheInsert fail now FAILURE_TTL fk msg), c.2)

/-- The pure compute step of law search (credentials, fetch, parse, project)
with no cache interaction, for comparison with `_search_law_impl`. -/
def computeLawSearch (ctx : OpCtx) (query : String) (page page_size : Int)
    (arguments : Option Arguments) : OpResult LawOk × List ReqParams :=
  let credentials := get_credentials ctx.env arguments
  let api_key := credentials.LAW_API_KEY
  let base_url := credentials.LAW_API_URL
  if api_key = "" then
    (.error MISSING_KEY_MSG_LAW, [])
  else
    let params := searchLawParams base_url api_key query page page_size
    let fetch := make_request_with_retry ctx.transport 3
    let reqs := List.replicate fetch.attempts params
    match fetch.outcome with
    | .error e => (.error (requestFailMsg e), reqs)
    | .ok none => (.error PARSE_FAIL_MSG, reqs)
    | .ok (some root) =>
      let laws := searchLawExtract root
      let total_count := root.findtextDesc "totalCnt" "0"
      match pyInt total_count with
      | none =>
        (.error ("법령 검색 중 오류 발생: " ++ invalidIntStr total_count), reqs)
      | some total =>
        (.ok { total := total, page := page, page_size := page_size,
               laws := laws }, reqs)

/-- The pure compute step of law detail. -/
def computeLawDetail (ctx : OpCtx) (law_id : String)
    (arguments : Option Arguments) : OpResult LawDetailOk × List ReqParams :=
  let credentials := get_credentials ctx.env arguments
  let api_key := credentials.LAW_API_KEY
  let base_url := credentials.LAW_API_URL
  if api_key = "" then
    (.error MISSING_KEY_MSG, [])
  else
    let params := lawDetailParams base_url api_key law_id
    let fetch := make_request_with_retry ctx.transport 3
    let reqs := List.replicate fetch.attempts params
    match fetch.outcome with
    | .error e => (.error (requestFailMsg e), reqs)
    | .ok none => (.error PARSE_FAIL_MSG, reqs)
    | .ok (some root) =>
      let articles := (root.findallDesc "조문").map projectArticle
      (.ok { info := lawDetailInfo root, articles := articles,
             article_count := articles.length }, reqs)

/-- The pure compute step of precedent search. -/
def computePrecSearch (ctx : OpCtx) (query : String) (page page_size : Int)
    (court : Option String) (arguments : Option Arguments) :
    OpResult PrecOk × List ReqParams :=
  let credentials := get_credentials ctx.env arguments
  let api_key := credentials.LAW_API_KEY
  let base_url := credentials.LAW_API_URL
  if api_key = "" then
    (.error MISSING_KEY_MSG, [])
  else
    let params := searchPrecParams base_url api_key query page page_size
    let fetch := make_request_with_retry ctx.transport 3
    let reqs := List.replicate fetch.attempts params
    match fetch.outcome with
    | .error e => (.error (requestFailMsg e), reqs)
    | .ok none => (.error PARSE_FAIL_MSG, reqs)
    | .ok (some root) =>
      let precedents := searchPrecExtract root
      let total_count := root.findtextDesc "totalCnt" "0"
      match pyInt total_count with
      | none =>
        (.error ("판례 검색 중 오류 발생: " ++ invalidIntStr total_count), reqs)
      | some total =>
        (.ok { total := total, page := page, page_size := page_size,
               precedents := precedents }, reqs)

/-- Packaging of `spec_get_or_compute` over the law-search caches, to compare
with `search_law` as a whole. -/
def spec_search_law (ctx : OpCtx) (query : String) (page page_size : Int)
    (arguments : Option Arguments) (s : OpState) : OpOut LawOk :=
  let r := spec_get_or_compute ctx.now s.law_cache s.failure_cache
    (query, page, page_size) (.law query page page_size)
    (fun _ => computeLawSearch ctx query page page_size arguments)
  ⟨r.1, { s with law_cache := r.2.1.1, failure_cache := r.2.1.2 }, r.2.2⟩

/-- Packaging of `spec_get_or_compute` over the law-detail caches. -/
def spec_get_law_detail (ctx : OpCtx) (law_id : String)
    (arguments : Option Arguments) (s : OpState) : OpOut LawDetailOk :=
  let r := spec_get_or_compute ctx.now s.detail_cache s.failure_cache
    law_id (.lawDetail law_id) (fun _ => computeLawDetail ctx law_id arguments)
  ⟨r.1, { s with detail_cache := r.2.1.1, failure_cache := r.2.1.2 }, r.2.2⟩

/-- Packaging of `spec_get_or_compute` over the precedent-search caches. -/
def spec_search_precedent (ctx : OpCtx) (query : String) (page page_size : Int)
    (court : Option String) (arguments : Option Arguments) (s : OpState) :
    OpOut PrecOk :=
  let r := spec_get_or_compute ctx.now s.precedent_cache s.failure_cache
    (query, page, page_size, court) (.prec query page page_size court)
    (fun _ => computePrecSearch ctx query page page_size court arguments)
  ⟨r.1, { s with precedent_cache := r.2.1.1, failure_cache := r.2.1.2 }, r.2.2⟩

/-- The back-off waits slept when the first `i` attempts all fail with a
transient error: `(attempt_index + 1) * 1` seconds each, i.e. `[1, 2, ..., i]`. -/
def retryWaits (i : Nat) : List Nat :=
  (List.range i).map (fun j => (j + 1) * 1)

/-- Transport stub for the retry scenario of §8: times out twice, then
succeeds on the third attempt. -/
def timeoutTwiceTransport : Nat → AttemptOutcome :=
  fun i => if i < 2 then .timeout else .success none

/-! ## Concrete fixtures (used by witnesses and counterexamples) -/

/-- A `<law>` record element with several expected children present
(`법령약칭명` is present but empty, i.e. has no text). -/
def sampleLaw1 : XmlElem :=
  .node "law" none (XmlForest.ofList
    [.node "법령ID" (some "001234") .nil,
     .node "법령명한글" (some "민법") .nil,
     .node "법령약칭명" none .nil,
     .node "법령구분명" (some "법률") .nil,
     .node "소관부처명" (some "법무부") .nil,
     .node "공포일자" (some "19580222") .nil,
     .node "공포번호" (some "471") .nil,
     .node "시행일자" (some "19600101") .nil,
     .node "제개정구분명" (some "제정") .nil])

/-- A `<law>` record element missing every expected child. -/
def sampleLaw2 : XmlElem := .node "law" none .nil

/-- A well-formed search-response fixture: `<totalCnt>2</totalCnt>` and two
`<law>` records, the second missing all its children. -/
def sampleRoot : XmlElem :=
  .node "LawSearch" none (XmlForest.ofList
    [.node "totalCnt" (some "2") .nil, sampleLaw1, sampleLaw2])

/-- Context: key configured in the process environment, transport always
times out. -/
def ctxKeyTimeout : OpCtx :=
  ⟨0, ⟨some "testkey123", none⟩, fun _ => .timeout⟩

/-- Context: key configured, transport returns the fixture document. -/
def ctxOkXml : OpCtx :=
  ⟨0, ⟨some "testkey123", none⟩, fun _ => .success (some sampleRoot)⟩

/-- Context: no key anywhere; the transport must never be reached. -/
def ctxNoKey : OpCtx := ⟨0, ⟨none, none⟩, fun _ => .timeout⟩

/-- A later context carrying different credentials (both in the environment
and as an override), for the credential-independence scenarios. -/
def ctxOtherCreds : OpCtx :=
  ⟨10, ⟨some "otherkey456", none⟩, fun _ => .timeout⟩

/-- A credential override mapping different from every fixture key. -/
def otherArgs : Option Arguments :=
  some ⟨some ⟨some "override789", none⟩⟩

/-- An arbitrary cached law-search payload for the warm-cache scenarios
(consistent with the key `("민법", 1, 10)`). -/
def warmPayload : LawOk := ⟨2, 1, 10, []⟩

/-- A state whose law success cache is warm for the key `("민법", 1, 10)`
(inserted at time 0). -/
def warmLawState : OpState :=
  ⟨[⟨("민법", 1, 10), warmPayload, SUCCESS_TTL⟩], [], [], []⟩

/-- Well-formedness of the law success cache: every entry's payload echoes
the page and page_size of its key.  (Holds for the empty initial cache and is
preserved by every operation.) -/
def LawCacheWF (c : List (CEntry (String × Int × Int) LawOk)) : Prop :=
  ∀ e ∈ c, e.val.page = e.key.2.1 ∧ e.val.page_size = e.key.2.2

/-- Well-formedness of the precedent success cache: every entry's payload
echoes the page and page_size of its key. -/
def PrecCacheWF
    (c : List (CEntry (String × Int × Int × Option String) PrecOk)) : Prop :=
  ∀ e ∈ c, e.val.page = e.key.2.1 ∧ e.val.page_size = e.key.2.2.1

/-! ## Theorems -/

/-- With no attempts remaining (only possible with `max_retries = 0`), the
generic `RequestException` is raised. -/
theorem retryGo_stop (t : Nat → AttemptOutcome) (attempt : Nat)
    (acc : List Nat) :
    retryGo t 0 attempt acc = ⟨.error .noAttempts, attempt, acc.reverse⟩ := rfl

/-- A successful GET returns immediately. -/
theorem retryGo_success (t : Nat → AttemptOutcome) (fuel attempt : Nat)
    (acc : List Nat) (b : Option XmlElem) (hs : t attempt = .success b) :
    retryGo t (fuel + 1) attempt acc = ⟨.ok b, attempt + 1, acc.reverse⟩ := by
  simp [retryGo, hs]

/-- A non-transient failure raises immediately. -/
theorem retryGo_other (t : Nat → AttemptOutcome) (fuel attempt : Nat)
    (acc : List Nat) (hs : t attempt = .otherError) :
    retryGo t (fuel + 1) attempt acc =
      ⟨.error .otherError, attempt + 1, acc.reverse⟩ := by
  simp [retryGo, hs]

/-- A transient failure with further attempts remaining sleeps
`(attempt+1)*1` seconds and moves to the next attempt. -/
theorem retryGo_transient_retry (t : Nat → AttemptOutcome) (fuel attempt : Nat)
    (acc : List Nat) (e : FetchError)
    (hs : (t attempt).transientErr = some e) :
    retryGo t (fuel + 2) attempt acc =
      retryGo t (fuel + 1) (attempt + 1) ((attempt + 1) * 1 :: acc) := by
  cases ho : t attempt with
  | timeout => simp [retryGo, ho]
  | connError => simp [retryGo, ho]
  | success b => rw [ho] at hs; simp [AttemptOutcome.transientErr] at hs
  | otherError => rw [ho] at hs; simp [AttemptOutcome.transientErr] at hs

/-- A transient failure on the final attempt raises that failure. -/
theorem retryGo_transient_last (t : Nat → AttemptOutcome) (attempt : Nat)
    (acc : List Nat) (e : FetchError)
    (hs : (t attempt).transientErr = some e) :
    retryGo t 1 attempt acc = ⟨.error e, attempt + 1, acc.reverse⟩ := by
  cases ho : t attempt with
  | timeout =>
    rw [ho] at hs
    simp only [AttemptOutcome.transientErr, Option.some.injEq] at hs
    subst hs
    simp [retryGo, ho]
  | connError =>
    rw [ho] at hs
    simp only [AttemptOutcome.transientErr, Option.some.injEq] at hs
    subst hs
    simp [retryGo, ho]
  | success b => rw [ho] at hs; simp [AttemptOutcome.transientErr] at hs
  | otherError => rw [ho] at hs; simp [AttemptOutcome.transientErr] at hs

/-- The loop performs at most `fuel` further attempts. -/
theorem retryGo_attempts_le (t : Nat → AttemptOutcome) :
    ∀ fuel attempt acc, (retryGo t fuel attempt acc).attempts ≤ attempt + fuel := by
  intro fuel
  induction fuel with
  | zero =>
    intro attempt acc
    show attempt ≤ attempt + 0
    omega
  | succ n ih =>
    intro attempt acc
    cases ho : t attempt with
    | success b =>
      rw [retryGo_success t n attempt acc b ho]
      show attempt + 1 ≤ attempt + (n + 1)
      omega
    | otherError =>
      rw [retryGo_other t n attempt acc ho]
      show attempt + 1 ≤ attempt + (n + 1)
      omega
    | timeout =>
      cases n with
      | zero =>
        rw [retryGo_transient_last t attempt acc .timeout (by rw [ho]; rfl)]
      | succ m =>
        rw [retryGo_transient_retry t m attempt acc .timeout (by rw [ho]; rfl)]
        have := ih (attempt + 1) ((attempt + 1) * 1 :: acc)
        omega
    | connError =>
      cases n with
      | zero =>
        rw [retryGo_transient_last t attempt acc .connError (by rw [ho]; rfl)]
      | succ m =>
        rw [retryGo_transient_retry t m attempt acc .connError (by rw [ho]; rfl)]
        have := ih (attempt + 1) ((attempt + 1) * 1 :: acc)
        omega

/-- After `i` transient failures (with attempts remaining), the loop stands at
attempt `i` with `maxr - i` attempts of fuel, having accumulated the back-off
waits `[1, ..., i]`. -/
theorem retryTransientSteps (t : Nat → AttemptOutcome) (maxr : Nat) :
    ∀ i, i < maxr → (∀ j, j < i → ((t j).transientErr).isSome) →
      make_request_with_retry t maxr =
        retryGo t (maxr - i) i (retryWaits i).reverse := by
  intro i
  induction i with
  | zero => intro _ _; simp [make_request_with_retry, retryWaits]
  | succ n ih =>
    intro hlt htr
    have hn : n < maxr := Nat.lt_of_succ_lt hlt
    have step := ih hn (fun j hj => htr j (Nat.lt_succ_of_lt hj))
    obtain ⟨e, he⟩ := Option.isSome_iff_exists.mp (htr n (Nat.lt_succ_self n))
    obtain ⟨k, hk⟩ : ∃ k, maxr - n = k + 2 := ⟨maxr - n - 2, by omega⟩
    have hk2 : maxr - (n + 1) = k + 1 := by omega
    have hacc : ((n + 1) * 1 :: (retryWaits n).reverse) =
        (retryWaits (n + 1)).reverse := by
      simp [retryWaits, List.range_succ]
    rw [step, hk, retryGo_transient_retry t k n _ e he, hacc, hk2]

/-- C7 counterexample: an explicit override does NOT always take precedence.
An override `LAW_API_URL` equal to the default constant is superseded by the
process environment, and an override `LAW_API_KEY = ""` is superseded by the
process environment key. -/
theorem C7_counterexample :
    (get_credentials ⟨none, some "https://example.com"⟩
        (some ⟨some ⟨none, some DEFAULT_LAW_API_URL⟩⟩)).LAW_API_URL =
      "https://example.com" ∧
    DEFAULT_LAW_API_URL ≠ "https://example.com" ∧
    (get_credentials ⟨some "secret-key", none⟩
        (some ⟨some ⟨some "", none⟩⟩)).LAW_API_KEY = "secret-key" := by
  refine ⟨rfl, ?_, rfl⟩
  decide

/-- C7 (amended): `get_credentials` resolves the key as: a non-empty override
takes precedence, otherwise the process environment, otherwise `""`; and the
base URL as: an override takes precedence unless empty or equal to the
default constant (in which case the environment value wins), otherwise the
environment, otherwise `DEFAULT_LAW_API_URL`.  It is a total function, so no
exception is raised for a missing key. -/
theorem C7_get_credentials_resolution (p : EnvMap) (a : Option Arguments) :
    get_credentials p a =
      { LAW_API_KEY := spec_resolved_api_key p a,
        LAW_API_URL := spec_resolved_base_url p a } := by
  rcases a with _ | ⟨env⟩
  · rfl
  · rcases env with _ | ⟨k, u⟩
    · rfl
    · rcases k with _ | k <;> rcases u with _ | u <;>
        simp only [get_credentials, spec_resolved_api_key,
          spec_resolved_base_url, overrideKey, overrideUrl] <;>
        split_ifs <;> simp_all

/-- C8 counterexample: for a key of at most 6 characters, `key[:6]` is the
whole key, so the masked string contains the full key — exhibited by writing
the mask of the key `"abc"` as `"abc"` followed by a suffix. -/
theorem C8_counterexample :
    maskKey "abc" = "abc" ++ "***(3 chars)" := by
  rfl

/-- C8 (amended): the masked key is the key's first 6 characters followed by
the asterisked length indicator `***({len} chars)`, and it reveals at most the
first 6 characters and the length: two keys agreeing on both have identical
masks.  (For keys of at most 6 characters the mask consequently contains the
whole key.) -/
theorem C8_mask_shape (key : String) :
    maskKey key =
      key.take 6 ++ "***" ++ "(" ++ toString key.length ++ " chars)" ∧
    (∀ k1 k2 : String, k1.take 6 = k2.take 6 → k1.length = k2.length →
      maskKey k1 = maskKey k2) := by
  refine ⟨rfl, ?_⟩
  intro k1 k2 h6 hlen
  simp [maskKey, h6, hlen]

/-- C8 witness: the extensionality part applied at two concrete keys that
agree on their first 6 characters and length but differ afterwards. -/
theorem C8_mask_shape_witness :
    ("abcdefgh" : String).take 6 = ("abcdefXY" : String).take 6 ∧
    maskKey "abcdefgh" = maskKey "abcdefXY" := by
  exact ⟨rfl, (C8_mask_shape "abcdefgh").2 "abcdefgh" "abcdefXY" rfl rfl⟩

/-- C3: `make_request_with_retry` performs at most `max_retries` total GET
attempts.  If the first `i` attempts fail transiently (timeout/connection
error) and attempt `i` succeeds, the response is returned after exactly `i+1`
invocations with linear waits `[1, ..., i]` seconds; if attempt `i` fails
non-transiently it raises immediately after those `i+1` invocations; if all
`max_retries` attempts fail transiently, the last such failure is raised after
exactly `max_retries` invocations. -/
theorem C3_make_request_with_retry (t : Nat → AttemptOutcome) (maxr : Nat) :
    (make_request_with_retry t maxr).attempts ≤ maxr ∧
    (∀ i b, i < maxr → (∀ j, j < i → ((t j).transientErr).isSome) →
      t i = .success b →
      make_request_with_retry t maxr = ⟨.ok b, i + 1, retryWaits i⟩) ∧
    (∀ i, i < maxr → (∀ j, j < i → ((t j).transientErr).isSome) →
      t i = .otherError →
      make_request_with_retry t maxr =
        ⟨.error .otherError, i + 1, retryWaits i⟩) ∧
    (∀ e, 0 < maxr → (∀ j, j < maxr → ((t j).transientErr).isSome) →
      (t (maxr - 1)).transientErr = some e →
      make_request_with_retry t maxr =
        ⟨.error e, maxr, retryWaits (maxr - 1)⟩) := by
  refine ⟨?_, ?_, ?_, ?_⟩
  · have h := retryGo_attempts_le t maxr 0 []
    simpa [make_request_with_retry] using h
  · intro i b hi htr hs
    obtain ⟨k, hk⟩ : ∃ k, maxr - i = k + 1 := ⟨maxr - i - 1, by omega⟩
    rw [retryTransientSteps t maxr i hi htr, hk, retryGo_success t k i _ b hs,
      List.reverse_reverse]
  · intro i hi htr hs
    obtain ⟨k, hk⟩ : ∃ k, maxr - i = k + 1 := ⟨maxr - i - 1, by omega⟩
    rw [retryTransientSteps t maxr i hi htr, hk, retryGo_other t k i _ hs,
      List.reverse_reverse]
  · intro e hpos htr hlast
    have hi : maxr - 1 < maxr := by omega
    have hk : maxr - (maxr - 1) = 1 := by omega
    have h1 : maxr - 1 + 1 = maxr := by omega
    rw [retryTransientSteps t maxr (maxr - 1) hi (fun j hj => htr j (by omega)), hk,
      retryGo_transient_last t (maxr - 1) _ e hlast, List.reverse_reverse, h1]

/-- C3 witness: the §8 scenario — a transport that times out twice and
succeeds on the third attempt, with `max_retries = 3`, yields the successful
response after exactly 3 invocations with waits of 1 s and 2 s. -/
theorem C3_witness :
    make_request_with_retry timeoutTwiceTransport 3 =
      ⟨.ok none, 3, [1, 2]⟩ := by
  have h := (C3_make_request_with_retry timeoutTwiceTransport 3).2.1 2 none
    (by decide) (by decide) rfl
  rw [h]
  rfl

/-- `search_law` (wrapper plus `_search_law_impl`) behaves exactly as the
spec's §4.4 `get_or_compute` discipline applied to the pure law-search
compute step. -/
theorem search_law_eq_spec (ctx : OpCtx) (query : String) (page page_size : Int)
    (args : Option Arguments) (s : OpState) :
    search_law ctx query page page_size args s =
      spec_search_law ctx query page page_size args s := by
  simp only [search_law, spec_search_law, spec_get_or_compute,
    _search_law_impl, computeLawSearch]
  cases h1 : cacheLookup s.law_cache ctx.now (query, page, page_size) with
  | some v => simp [h1]
  | none =>
    simp only [h1]
    cases h2 : cacheLookup s.failure_cache ctx.now
        (FailKey.law query page page_size) with
    | some msg => simp [h2]
    | none =>
      simp only [h2]
      by_cases hk : (get_credentials ctx.env args).LAW_API_KEY = ""
      · simp [hk]
      · simp only [hk, if_false, ite_false, if_neg hk]
        cases ho : (make_request_with_retry ctx.transport 3).outcome with
        | error e => simp [ho]
        | ok body =>
          cases body with
          | none => simp [ho]
          | some root =>
            cases hp : pyInt (root.findtextDesc "totalCnt" "0") with
            | none => simp [ho, hp]
            | some total => simp [ho, hp]

/-- `get_law_detail` behaves exactly as the spec's §4.4 discipline applied to
the pure law-detail compute step. -/
theorem get_law_detail_eq_spec (ctx : OpCtx) (law_id : String)
    (args : Option Arguments) (s : OpState) :
    get_law_detail ctx law_id args s = spec_get_law_detail ctx law_id args s := by
  simp only [get_law_detail, spec_get_law_detail, spec_get_or_compute,
    _get_law_detail_impl, computeLawDetail]
  cases h1 : cacheLookup s.detail_cache ctx.now law_id with
  | some v => simp [h1]
  | none =>
    simp only [h1]
    cases h2 : cacheLookup s.failure_cache ctx.now (FailKey.lawDetail law_id) with
    | some msg => simp [h2]
    | none =>
      simp only [h2]
      by_cases hk : (get_credentials ctx.env args).LAW_API_KEY = ""
      · simp [hk]
      · simp only [hk, if_false, ite_false, if_neg hk]
        cases ho : (make_request_with_retry ctx.transport 3).outcome with
        | error e => simp [ho]
        | ok body =>
          cases body with
          | none => simp [ho]
          | some root => simp [ho]

/-- `search_precedent` behaves exactly as the spec's §4.4 discipline applied
to the pure precedent-search compute step. -/
theorem search_precedent_eq_spec (ctx : OpCtx) (query : String)
    (page page_size : Int) (court : Option String) (args : Option Arguments)
    (s : OpState) :
    search_precedent ctx query page page_size court args s =
      spec_search_precedent ctx query page page_size court args s := by
  simp only [search_precedent, spec_search_precedent, spec_get_or_compute,
    _search_precedent_impl, computePrecSearch]
  cases h1 : cacheLookup s.precedent_cache ctx.now
      (query, page, page_size, court) with
  | some v => simp [h1]
  | none =>
    simp only [h1]
    cases h2 : cacheLookup s.failure_cache ctx.now
        (FailKey.prec query page page_size court) with
    | some msg => simp [h2]
    | none =>
      simp only [h2]
      by_cases hk : (get_credentials ctx.env args).LAW_API_KEY = ""
      · simp [hk]
      · simp only [hk, if_false, ite_false, if_neg hk]
        cases ho : (make_request_with_retry ctx.transport 3).outcome with
        | error e => simp [ho]
        | ok body =>
          cases body with
          | none => simp [ho]
          | some root =>
            cases hp : pyInt (root.findtextDesc "totalCnt" "0") with
            | none => simp [ho, hp]
            | some total => simp [ho, hp]

/-- `get_precedent_detail` touches no cache: the state passes through
unchanged on every path. -/
theorem get_precedent_detail_state_eq (ctx : OpCtx) (precedent_id : String)
    (args : Option Arguments) (s : OpState) :
    (get_precedent_detail ctx precedent_id args s).state = s := by
  simp only [get_precedent_detail]
  by_cases hk : (get_credentials ctx.env args).LAW_API_KEY = ""
  · simp [hk]
  · simp only [hk, if_neg hk]
    cases ho : ctx.transport 0 with
    | success body => cases body <;> simp [ho]
    | timeout => simp [ho]
    | connError => simp [ho]
    | otherError => simp [ho]

/-- `search_administrative_rule` touches no cache: the state passes through
unchanged on every path. -/
theorem search_administrative_rule_state_eq (ctx : OpCtx) (query : String)
    (page page_size : Int) (args : Option Arguments) (s : OpState) :
    (search_administrative_rule ctx query page page_size args s).state = s := by
  simp only [search_administrative_rule]
  by_cases hk : (get_credentials ctx.env args).LAW_API_KEY = ""
  · simp [hk]
  · simp only [hk, if_neg hk]
    cases ho : ctx.transport 0 with
    | success body =>
      cases body with
      | none => simp [ho]
      | some root =>
        cases hp : pyInt (root.findtextDesc "totalCnt" "0") with
        | none => simp [ho, hp]
        | some total => simp [ho, hp]
    | timeout => simp [ho]
    | connError => simp [ho]
    | otherError => simp [ho]

/-- C1 counterexample: `search_administrative_rule` does NOT delegate to the
cache discipline.  With a configured key and a transport that times out, the
call produces an error result, yet the failure cache stays empty and the
state is unchanged, so an immediately repeated identical call hits the
transport again — under the claimed `get_or_compute` discipline the second
call would have been served from the failure cache with zero requests. -/
theorem C1_counterexample :
    (search_administrative_rule ctxKeyTimeout "행정" 1 10 none
        OpState.empty).result = .error (requestFailMsg .timeout) ∧
    (search_administrative_rule ctxKeyTimeout "행정" 1 10 none
        OpState.empty).state = OpState.empty ∧
    (search_administrative_rule ctxKeyTimeout "행정" 1 10 none
        OpState.empty).requests.length = 1 ∧
    (search_administrative_rule ctxKeyTimeout "행정" 1 10 none
        (search_administrative_rule ctxKeyTimeout "행정" 1 10 none
          OpState.empty).state).requests.length = 1 := by
  exact ⟨rfl, rfl, rfl, rfl⟩

/-- C1 (amended): `search_law`, `get_law_detail` and `search_precedent` build
their cache keys from the non-credential parameters and coincide exactly with
the §4.4 `get_or_compute` discipline (success cache, then short-lived failure
cache, then compute-and-store) over their per-operation success cache and the
shared failure cache; `get_precedent_detail` and `search_administrative_rule`
bypass the cache layer entirely, leaving the cache state untouched. -/
theorem C1_cache_delegation (ctx : OpCtx) (query law_id precedent_id : String)
    (page page_size : Int) (court : Option String) (args : Option Arguments)
    (s : OpState) :
    search_law ctx query page page_size args s =
      spec_search_law ctx query page page_size args s ∧
    get_law_detail ctx law_id args s = spec_get_law_detail ctx law_id args s ∧
    search_precedent ctx query page page_size court args s =
      spec_search_precedent ctx query page page_size court args s ∧
    (get_precedent_detail ctx precedent_id args s).state = s ∧
    (search_administrative_rule ctx query page page_size args s).state = s := by
  exact ⟨search_law_eq_spec ctx query page page_size args s,
    get_law_detail_eq_spec ctx law_id args s,
    search_precedent_eq_spec ctx query page page_size court args s,
    get_precedent_detail_state_eq ctx precedent_id args s,
    search_administrative_rule_state_eq ctx query page page_size args s⟩

/-- C2: for each cached operation the lookup order and store policy are:
an unexpired success-cache hit is returned with no upstream call and no state
change; otherwise an unexpired failure-cache hit returns the cached error
with no upstream call; otherwise the compute path runs and its result is
stored in the success cache exactly when it lacks an `error` field and in the
failure cache exactly when it has one, and is returned either way. -/
theorem C2_lookup_order_and_store (ctx : OpCtx) (query law_id : String)
    (page page_size : Int) (court : Option String) (args : Option Arguments)
    (s : OpState) :
    ((∀ v, cacheLookup s.law_cache ctx.now (query, page, page_size) = some v →
      search_law ctx query page page_size args s = ⟨.ok v, s, []⟩) ∧
    (cacheLookup s.law_cache ctx.now (query, page, page_size) = none →
      ∀ msg, cacheLookup s.failure_cache ctx.now
          (.law query page page_size) = some msg →
        search_law ctx query page page_size args s = ⟨.error msg, s, []⟩) ∧
    (cacheLookup s.law_cache ctx.now (query, page, page_size) = none →
      cacheLookup s.failure_cache ctx.now (.law query page page_size) = none →
      (∀ payload,
        (computeLawSearch ctx query page page_size args).1 = .ok payload →
        search_law ctx query page page_size args s =
          ⟨.ok payload,
           { s with law_cache := (cacheInsert s.law_cache ctx.now SUCCESS_TTL
               (query, page, page_size) payload) },
           (computeLawSearch ctx query page page_size args).2⟩) ∧
      (∀ msg,
        (computeLawSearch ctx query page page_size args).1 = .error msg →
        search_law ctx query page page_size args s =
          ⟨.error msg,
           { s with failure_cache := (cacheInsert s.failure_cache ctx.now
               FAILURE_TTL (.law query page page_size) msg) },
           (computeLawSearch ctx query page page_size args).2⟩))) ∧
    ((∀ v, cacheLookup s.detail_cache ctx.now law_id = some v →
      get_law_detail ctx law_id args s = ⟨.ok v, s, []⟩) ∧
    (cacheLookup s.detail_cache ctx.now law_id = none →
      ∀ msg, cacheLookup s.failure_cache ctx.now
          (.lawDetail law_id) = some msg →
        get_law_detail ctx law_id args s = ⟨.error msg, s, []⟩) ∧
    (cacheLookup s.detail_cache ctx.now law_id = none →
      cacheLookup s.failure_cache ctx.now (.lawDetail law_id) = none →
      (∀ payload, (computeLawDetail ctx law_id args).1 = .ok payload →
        get_law_detail ctx law_id args s =
          ⟨.ok payload,
           { s with detail_cache := (cacheInsert s.detail_cache ctx.now
               SUCCESS_TTL law_id payload) },
           (computeLawDetail ctx law_id args).2⟩) ∧
      (∀ msg, (computeLawDetail ctx law_id args).1 = .error msg →
        get_law_detail ctx law_id args s =
          ⟨.error msg,
           { s with failure_cache := (cacheInsert s.failure_cache ctx.now
               FAILURE_TTL (.lawDetail law_id) msg) },
           (computeLawDetail ctx law_id args).2⟩))) ∧
    ((∀ v, cacheLookup s.precedent_cache ctx.now
        (query, page, page_size, court) = some v →
      search_precedent ctx query page page_size court args s = ⟨.ok v, s, []⟩) ∧
    (cacheLookup s.precedent_cache ctx.now (query, page, page_size, court) = none →
      ∀ msg, cacheLookup s.failure_cache ctx.now
          (.prec query page page_size court) = some msg →
        search_precedent ctx query page page_size court args s =
          ⟨.error msg, s, []⟩) ∧
    (cacheLookup s.precedent_cache ctx.now (query, page, page_size, court) = none →
      cacheLookup s.failure_cache ctx.now (.prec query page page_size court) = none →
      (∀ payload,
        (computePrecSearch ctx query page page_size court args).1 = .ok payload →
        search_precedent ctx query page page_size court args s =
          ⟨.ok payload,
           { s with precedent_cache := (cacheInsert s.precedent_cache ctx.now
               SUCCESS_TTL (query, page, page_size, court) payload) },
           (computePrecSearch ctx query page page_size court args).2⟩) ∧
      (∀ msg,
        (computePrecSearch ctx query page page_size court args).1 = .error msg →
        search_precedent ctx query page page_size court args s =
          ⟨.error msg,
           { s with failure_cache := (cacheInsert s.failure_cache ctx.now
               FAILURE_TTL (.prec query page page_size court) msg) },
           (computePrecSearch ctx query page page_size court args).2⟩))) := by
  refine ⟨⟨?_, ?_, ?_⟩, ⟨?_, ?_, ?_⟩, ⟨?_, ?_, ?_⟩⟩
  · intro v h1
    rw [search_law_eq_spec]
    simp [spec_search_law, spec_get_or_compute, h1]
  · intro h1 msg h2
    rw [search_law_eq_spec]
    simp [spec_search_law, spec_get_or_compute, h1, h2]
  · intro h1 h2
    constructor
    · intro payload hc
      rw [search_law_eq_spec]
      simp [spec_search_law, spec_get_or_compute, h1, h2, hc]
    · intro msg hc
      rw [search_law_eq_spec]
      simp [spec_search_law, spec_get_or_compute, h1, h2, hc]
  · intro v h1
    rw [get_law_detail_eq_spec]
    simp [spec_get_law_detail, spec_get_or_compute, h1]
  · intro h1 msg h2
    rw [get_law_detail_eq_spec]
    simp [spec_get_law_detail, spec_get_or_compute, h1, h2]
  · intro h1 h2
    constructor
    · intro payload hc
      rw [get_law_detail_eq_spec]
      simp [spec_get_law_detail, spec_get_or_compute, h1, h2, hc]
    · intro msg hc
      rw [get_law_detail_eq_spec]
      simp [spec_get_law_detail, spec_get_or_compute, h1, h2, hc]
  · intro v h1
    rw [search_precedent_eq_spec]
    simp [spec_search_precedent, spec_get_or_compute, h1]
  · intro h1 msg h2
    rw [search_precedent_eq_spec]
    simp [spec_search_precedent, spec_get_or_compute, h1, h2]
  · intro h1 h2
    constructor
    · intro payload hc
      rw [search_precedent_eq_spec]
      simp [spec_search_precedent, spec_get_or_compute, h1, h2, hc]
    · intro msg hc
      rw [search_precedent_eq_spec]
      simp [spec_search_precedent, spec_get_or_compute, h1, h2, hc]

/-- C2 witness: with a warm success cache for `("민법", 1, 10)` the call is
served from the cache — the cached payload comes back unchanged, the state is
untouched, and zero upstream requests are made (even though no API key is
configured in this context). -/
theorem C2_witness :
    cacheLookup warmLawState.law_cache ctxNoKey.now ("민법", 1, 10) =
      some warmPayload ∧
    search_law ctxNoKey "민법" 1 10 none warmLawState =
      ⟨.ok warmPayload, warmLawState, []⟩ := by
  exact ⟨rfl, (C2_lookup_order_and_store ctxNoKey "민법" "" 1 10 none none
    warmLawState).1.1 warmPayload rfl⟩

/-- Every request the pure law-search compute step issues carries
`display = min(page_size, 50)`. -/
theorem computeLawSearch_display (ctx : OpCtx) (query : String)
    (page page_size : Int) (args : Option Arguments) :
    ∀ r ∈ (computeLawSearch ctx query page page_size args).2,
      r.display = some (min page_size 50) := by
  intro r hr
  simp only [computeLawSearch] at hr
  by_cases hk : (get_credentials ctx.env args).LAW_API_KEY = ""
  · simp [hk] at hr
  · simp only [hk, if_neg hk] at hr
    have hrep : r ∈ List.replicate (make_request_with_retry ctx.transport 3).attempts
        (searchLawParams (get_credentials ctx.env args).LAW_API_URL
          (get_credentials ctx.env args).LAW_API_KEY query page page_size) := by
      cases ho : (make_request_with_retry ctx.transport 3).outcome with
      | error e => simpa [ho] using hr
      | ok body =>
        cases body with
        | none => simpa [ho] using hr
        | some root =>
          cases hp : pyInt (root.findtextDesc "totalCnt" "0") with
          | none => simpa [ho, hp] using hr
          | some total => simpa [ho, hp] using hr
    rw [List.eq_of_mem_replicate hrep]
    rfl

/-- Every request the pure precedent-search compute step issues carries
`display = min(page_size, 50)`. -/
theorem computePrecSearch_display (ctx : OpCtx) (query : String)
    (page page_size : Int) (court : Option String) (args : Option Arguments) :
    ∀ r ∈ (computePrecSearch ctx query page page_size court args).2,
      r.display = some (min page_size 50) := by
  intro r hr
  simp only [computePrecSearch] at hr
  by_cases hk : (get_credentials ctx.env args).LAW_API_KEY = ""
  · simp [hk] at hr
  · simp only [hk, if_neg hk] at hr
    have hrep : r ∈ List.replicate (make_request_with_retry ctx.transport 3).attempts
        (searchPrecParams (get_credentials ctx.env args).LAW_API_URL
          (get_credentials ctx.env args).LAW_API_KEY query page page_size) := by
      cases ho : (make_request_with_retry ctx.transport 3).outcome with
      | error e => simpa [ho] using hr
      | ok body =>
        cases body with
        | none => simpa [ho] using hr
        | some root =>
          cases hp : pyInt (root.findtextDesc "totalCnt" "0") with
          | none => simpa [ho, hp] using hr
          | some total => simpa [ho, hp] using hr
    rw [List.eq_of_mem_replicate hrep]
    rfl

/-- Every request `search_law` issues carries `display = min(page_size, 50)`. -/
theorem search_law_requests_display (ctx : OpCtx) (query : String)
    (page page_size : Int) (args : Option Arguments) (s : OpState) :
    ∀ r ∈ (search_law ctx query page page_size args s).requests,
      r.display = some (min page_size 50) := by
  intro r hr
  rw [search_law_eq_spec] at hr
  simp only [spec_search_law, spec_get_or_compute] at hr
  cases h1 : cacheLookup s.law_cache ctx.now (query, page, page_size) with
  | some v => simp [h1] at hr
  | none =>
    simp only [h1] at hr
    cases h2 : cacheLookup s.failure_cache ctx.now
        (FailKey.law query page page_size) with
    | some msg => simp [h2] at hr
    | none =>
      simp only [h2] at hr
      apply computeLawSearch_display ctx query page page_size args r
      cases hc : (computeLawSearch ctx query page page_size args).1 with
      | ok payload => simpa [hc] using hr
      | error msg => simpa [hc] using hr

/-- Every request `search_precedent` issues carries
`display = min(page_size, 50)`. -/
theorem search_precedent_requests_display (ctx : OpCtx) (query : String)
    (page page_size : Int) (court : Option String) (args : Option Arguments)
    (s : OpState) :
    ∀ r ∈ (search_precedent ctx query page page_size court args s).requests,
      r.display = some (min page_size 50) := by
  intro r hr
  rw [search_precedent_eq_spec] at hr
  simp only [spec_search_precedent, spec_get_or_compute] at hr
  cases h1 : cacheLookup s.precedent_cache ctx.now
      (query, page, page_size, court) with
  | some v => simp [h1] at hr
  | none =>
    simp only [h1] at hr
    cases h2 : cacheLookup s.failure_cache ctx.now
        (FailKey.prec query page page_size court) with
    | some msg => simp [h2] at hr
    | none =>
      simp only [h2] at hr
      apply computePrecSearch_display ctx query page page_size court args r
      cases hc : (computePrecSearch ctx query page page_size court args).1 with
      | ok payload => simpa [hc] using hr
      | error msg => simpa [hc] using hr

/-- Every request `search_administrative_rule` issues carries
`display = min(page_size, 50)`. -/
theorem search_admrul_requests_display (ctx : OpCtx) (query : String)
    (page page_size : Int) (args : Option Arguments) (s : OpState) :
    ∀ r ∈ (search_administrative_rule ctx query page page_size args s).requests,
      r.display = some (min page_size 50) := by
  intro r hr
  simp only [search_administrative_rule] at hr
  by_cases hk : (get_credentials ctx.env args).LAW_API_KEY = ""
  · simp [hk] at hr
  · simp only [hk, if_neg hk] at hr
    have hre : r = searchAdmrulParams (get_credentials ctx.env args).LAW_API_URL
        (get_credentials ctx.env args).LAW_API_KEY query page page_size := by
      cases ho : ctx.transport 0 with
      | success body =>
        cases body with
        | none => simpa [ho] using hr
        | some root =>
          cases hp : pyInt (root.findtextDesc "totalCnt" "0") with
          | none => simpa [ho, hp] using hr
          | some total => simpa [ho, hp] using hr
      | timeout => simpa [ho] using hr
      | connError => simpa [ho] using hr
      | otherError => simpa [ho] using hr
    rw [hre]
    rfl

/-- C4: for every call to `search_law`, `search_precedent` or
`search_administrative_rule`, every `display` parameter actually sent upstream
equals `min(page_size, 50)`; in particular, for `page_size > 50` the value
sent is exactly 50. -/
theorem C4_display_clamped (ctx : OpCtx) (query : String)
    (page page_size : Int) (court : Option String) (args : Option Arguments)
    (s : OpState) :
    (∀ r ∈ (search_law ctx query page page_size args s).requests,
      r.display = some (min page_size 50)) ∧
    (∀ r ∈ (search_precedent ctx query page page_size court args s).requests,
      r.display = some (min page_size 50)) ∧
    (∀ r ∈ (search_administrative_rule ctx query page page_size args s).requests,
      r.display = some (min page_size 50)) ∧
    (50 < page_size →
      (∀ r ∈ (search_law ctx query page page_size args s).requests,
        r.display = some 50) ∧
      (∀ r ∈ (search_precedent ctx query page page_size court args s).requests,
        r.display = some 50) ∧
      (∀ r ∈ (search_administrative_rule ctx query page page_size
          args s).requests, r.display = some 50)) := by
  have hmin : 50 < page_size → min page_size 50 = 50 := fun h =>
    min_eq_right (le_of_lt h)
  refine ⟨search_law_requests_display ctx query page page_size args s,
    search_precedent_requests_display ctx query page page_size court args s,
    search_admrul_requests_display ctx query page page_size args s, ?_⟩
  intro h
  refine ⟨fun r hr => ?_, fun r hr => ?_, fun r hr => ?_⟩
  · rw [search_law_requests_display ctx query page page_size args s r hr, hmin h]
  · rw [search_precedent_requests_display ctx query page page_size court args s
      r hr, hmin h]
  · rw [search_admrul_requests_display ctx query page page_size args s r hr,
      hmin h]

/-- C4 witness: an administrative-rule search requesting `page_size = 60`
issues exactly one upstream request, whose `display` parameter is 50. -/
theorem C4_witness :
    searchAdmrulParams DEFAULT_LAW_API_URL "testkey123" "규칙" 1 60 ∈
      (search_administrative_rule ctxOkXml "규칙" 1 60 none
        OpState.empty).requests ∧
    (searchAdmrulParams DEFAULT_LAW_API_URL "testkey123" "규칙" 1 60).display =
      some 50 := by
  have hlist : (search_administrative_rule ctxOkXml "규칙" 1 60 none
      OpState.empty).requests =
      [searchAdmrulParams DEFAULT_LAW_API_URL "testkey123" "규칙" 1 60] := rfl
  have hm : searchAdmrulParams DEFAULT_LAW_API_URL "testkey123" "규칙" 1 60 ∈
      (search_administrative_rule ctxOkXml "규칙" 1 60 none
        OpState.empty).requests := by
    rw [hlist]
    exact List.mem_singleton_self _
  exact ⟨hm, ((C4_display_clamped ctxOkXml "규칙" 1 60 none none
    OpState.empty).2.2.2 (by decide)).2.2 _ hm⟩

/-- A fresh TTL insert is found by any lookup before its expiry. -/
theorem cacheLookup_insert_self {κ ν : Type} [DecidableEq κ]
    (c : List (CEntry κ ν)) (now ttl now2 : Nat) (k : κ) (v : ν)
    (h : now2 < now + ttl) :
    cacheLookup (cacheInsert c now ttl k v) now2 k = some v := by
  unfold cacheLookup cacheInsert
  rw [List.find?_cons_of_pos]
  · simp [h]

/-- A success-cache hit returns the cached law-search payload with no state
change and no requests. -/
theorem search_law_hit (ctx : OpCtx) (query : String) (page page_size : Int)
    (args : Option Arguments) (s : OpState) (v : LawOk)
    (h : cacheLookup s.law_cache ctx.now (query, page, page_size) = some v) :
    search_law ctx query page page_size args s = ⟨.ok v, s, []⟩ := by
  rw [search_law_eq_spec]
  simp [spec_search_law, spec_get_or_compute, h]

/-- A success-cache hit returns the cached precedent-search payload with no
state change and no requests. -/
theorem search_precedent_hit (ctx : OpCtx) (query : String)
    (page page_size : Int) (court : Option String) (args : Option Arguments)
    (s : OpState) (v : PrecOk)
    (h : cacheLookup s.precedent_cache ctx.now
      (query, page, page_size, court) = some v) :
    search_precedent ctx query page page_size court args s = ⟨.ok v, s, []⟩ := by
  rw [search_precedent_eq_spec]
  simp [spec_search_precedent, spec_get_or_compute, h]

/-- On a success-cache miss, a successful `search_law` call stores its payload
in the law cache under the call's key. -/
theorem search_law_miss_ok_state (ctx : OpCtx) (query : String)
    (page page_size : Int) (args : Option Arguments) (s : OpState) (v : LawOk)
    (h1 : cacheLookup s.law_cache ctx.now (query, page, page_size) = none)
    (hres : (search_law ctx query page page_size args s).result = .ok v) :
    (search_law ctx query page page_size args s).state =
      { s with law_cache := (cacheInsert s.law_cache ctx.now SUCCESS_TTL
          (query, page, page_size) v) } := by
  rw [search_law_eq_spec] at hres ⊢
  simp only [spec_search_law, spec_get_or_compute, h1] at hres ⊢
  cases h2 : cacheLookup s.failure_cache ctx.now
      (FailKey.law query page page_size) with
  | some msg => rw [h2] at hres; simp at hres
  | none =>
    rw [h2] at hres
    cases hc : (computeLawSearch ctx query page page_size args).1 with
    | ok payload =>
      rw [hc] at hres
      have hv : payload = v := by simpa using hres
      subst hv
      simp
    | error msg => rw [hc] at hres; simp at hres

/-- On a success-cache miss, a successful `search_precedent` call stores its
payload in the precedent cache under the call's key. -/
theorem search_precedent_miss_ok_state (ctx : OpCtx) (query : String)
    (page page_size : Int) (court : Option String) (args : Option Arguments)
    (s : OpState) (v : PrecOk)
    (h1 : cacheLookup s.precedent_cache ctx.now
      (query, page, page_size, court) = none)
    (hres : (search_precedent ctx query page page_size court args s).result =
      .ok v) :
    (search_precedent ctx query page page_size court args s).state =
      { s with precedent_cache := (cacheInsert s.precedent_cache ctx.now
          SUCCESS_TTL (query, page, page_size, court) v) } := by
  rw [search_precedent_eq_spec] at hres ⊢
  simp only [spec_search_precedent, spec_get_or_compute, h1] at hres ⊢
  cases h2 : cacheLookup s.failure_cache ctx.now
      (FailKey.prec query page page_size court) with
  | some msg => rw [h2] at hres; simp at hres
  | none =>
    rw [h2] at hres
    cases hc : (computePrecSearch ctx query page page_size court args).1 with
    | ok payload =>
      rw [hc] at hres
      have hv : payload = v := by simpa using hres
      subst hv
      simp
    | error msg => rw [hc] at hres; simp at hres

/-- C5: the cache key contains no credential material, so after a first call
(under credentials `args1`) populates the success cache, a second call with
identical non-credential parameters is served from that slot for ANY
credential override `args2` and any later time within the TTL — the cached
result comes back unchanged with zero upstream requests. -/
theorem C5_cache_key_credential_independent (ctx ctx2 : OpCtx) (query : String)
    (page page_size : Int) (court : Option String)
    (args1 args2 : Option Arguments) (s : OpState) :
    (∀ v : LawOk,
      cacheLookup s.law_cache ctx.now (query, page, page_size) = none →
      (search_law ctx query page page_size args1 s).result = .ok v →
      ctx2.now < ctx.now + SUCCESS_TTL →
      search_law ctx2 query page page_size args2
          (search_law ctx query page page_size args1 s).state =
        ⟨.ok v, (search_law ctx query page page_size args1 s).state, []⟩) ∧
    (∀ v : PrecOk,
      cacheLookup s.precedent_cache ctx.now
        (query, page, page_size, court) = none →
      (search_precedent ctx query page page_size court args1 s).result = .ok v →
      ctx2.now < ctx.now + SUCCESS_TTL →
      search_precedent ctx2 query page page_size court args2
          (search_precedent ctx query page page_size court args1 s).state =
        ⟨.ok v, (search_precedent ctx query page page_size court args1 s).state,
         []⟩) := by
  constructor
  · intro v h1 hres hlt
    have hstate := search_law_miss_ok_state ctx query page page_size args1 s v
      h1 hres
    apply search_law_hit
    rw [hstate]
    exact cacheLookup_insert_self s.law_cache ctx.now SUCCESS_TTL ctx2.now
      (query, page, page_size) v hlt
  · intro v h1 hres hlt
    have hstate := search_precedent_miss_ok_state ctx query page page_size court
      args1 s v h1 hres
    apply search_precedent_hit
    rw [hstate]
    exact cacheLookup_insert_self s.precedent_cache ctx.now SUCCESS_TTL ctx2.now
      (query, page, page_size, court) v hlt

/-- C5 witness: a first `search_law` call under the environment key
`testkey123` populates the cache; a repeat call at a later time with a
different environment key AND a different override key is served from the
same cache slot with zero upstream requests. -/
theorem C5_witness :
    search_law ctxOtherCreds "민법" 1 10 otherArgs
        (search_law ctxOkXml "민법" 1 10 none OpState.empty).state =
      ⟨.ok ⟨2, 1, 10, [projectLaw sampleLaw1, projectLaw sampleLaw2]⟩,
       (search_law ctxOkXml "민법" 1 10 none OpState.empty).state, []⟩ := by
  exact (C5_cache_key_credential_independent ctxOkXml ctxOtherCreds "민법" 1 10
    none none otherArgs OpState.empty).1
    ⟨2, 1, 10, [projectLaw sampleLaw1, projectLaw sampleLaw2]⟩ rfl rfl
    (by decide)

/-- C6 counterexample: with no API key, `get_precedent_detail` returns the
error WITHOUT caching it — the failure cache stays empty, so the error is not
"cached briefly under the failure cache".  Moreover, with a warm success
cache, `search_law` under an empty key returns the cached success rather than
an error mapping. -/
theorem C6_counterexample :
    get_precedent_detail ctxNoKey "12345" none OpState.empty =
      ⟨.error MISSING_KEY_MSG, OpState.empty, []⟩ ∧
    (get_precedent_detail ctxNoKey "12345" none
      OpState.empty).state.failure_cache = [] ∧
    (search_law ctxNoKey "민법" 1 10 none warmLawState).result =
      .ok warmPayload := by
  exact ⟨rfl, rfl, rfl⟩

/-- C6 (amended): when the resolved API key is empty and the call is not
served from a cache, every operation returns an `{error}` mapping whose
message carries the recognizable prefix `API 키가 설정되지 않았습니다` with zero
transport calls; `search_law`, `get_law_detail` and `search_precedent` store
that ErrorResult briefly in the failure cache, while `get_precedent_detail`
and `search_administrative_rule` return it without caching anything. -/
theorem C6_missing_key (ctx : OpCtx) (query law_id precedent_id : String)
    (page page_size : Int) (court : Option String) (args : Option Arguments)
    (s : OpState)
    (hk : (get_credentials ctx.env args).LAW_API_KEY = "") :
    MISSING_KEY_MSG_LAW =
      MISSING_KEY_MSG ++ " LAW_API_KEY 환경 변수를 설정해주세요." ∧
    (cacheLookup s.law_cache ctx.now (query, page, page_size) = none →
      cacheLookup s.failure_cache ctx.now (.law query page page_size) = none →
      search_law ctx query page page_size args s =
        ⟨.error MISSING_KEY_MSG_LAW,
         { s with failure_cache := (cacheInsert s.failure_cache ctx.now
             FAILURE_TTL (.law query page page_size) MISSING_KEY_MSG_LAW) },
         []⟩) ∧
    (cacheLookup s.detail_cache ctx.now law_id = none →
      cacheLookup s.failure_cache ctx.now (.lawDetail law_id) = none →
      get_law_detail ctx law_id args s =
        ⟨.error MISSING_KEY_MSG,
         { s with failure_cache := (cacheInsert s.failure_cache ctx.now
             FAILURE_TTL (.lawDetail law_id) MISSING_KEY_MSG) }, []⟩) ∧
    (cacheLookup s.precedent_cache ctx.now
        (query, page, page_size, court) = none →
      cacheLookup s.failure_cache ctx.now
        (.prec query page page_size court) = none →
      search_precedent ctx query page page_size court args s =
        ⟨.error MISSING_KEY_MSG,
         { s with failure_cache := (cacheInsert s.failure_cache ctx.now
             FAILURE_TTL (.prec query page page_size court) MISSING_KEY_MSG) },
         []⟩) ∧
    get_precedent_detail ctx precedent_id args s =
      ⟨.error MISSING_KEY_MSG, s, []⟩ ∧
    search_administrative_rule ctx query page page_size args s =
      ⟨.error MISSING_KEY_MSG, s, []⟩ := by
  refine ⟨rfl, ?_, ?_, ?_, ?_, ?_⟩
  · intro h1 h2
    rw [search_law_eq_spec]
    simp [spec_search_law, spec_get_or_compute, h1, h2, computeLawSearch, hk]
  · intro h1 h2
    rw [get_law_detail_eq_spec]
    simp [spec_get_law_detail, spec_get_or_compute, h1, h2, computeLawDetail,
      hk]
  · intro h1 h2
    rw [search_precedent_eq_spec]
    simp [spec_search_precedent, spec_get_or_compute, h1, h2,
      computePrecSearch, hk]
  · simp [get_precedent_detail, hk]
  · simp [search_administrative_rule, hk]

/-- C6 witness: all five conclusions at a concrete empty-key context and the
empty cache state. -/
theorem C6_missing_key_witness :
    search_law ctxNoKey "민법" 1 10 none OpState.empty =
      ⟨.error MISSING_KEY_MSG_LAW,
       { OpState.empty with failure_cache := (cacheInsert [] 0 FAILURE_TTL
           (.law "민법" 1 10) MISSING_KEY_MSG_LAW) }, []⟩ ∧
    search_administrative_rule ctxNoKey "규칙" 1 10 none OpState.empty =
      ⟨.error MISSING_KEY_MSG, OpState.empty, []⟩ := by
  have h := C6_missing_key ctxNoKey "민법" "L001" "P001" 1 10 none none
    OpState.empty rfl
  exact ⟨h.2.1 rfl rfl, h.2.2.2.2.2⟩

/-- For every field pair of the hardcoded law field list, the projected
record binds the result key to `law.findtext(xml_tag, "")`. -/
theorem projectLaw_lookup (law : XmlElem) (p : String × String)
    (hp : p ∈ lawFieldPairs) :
    (projectLaw law).lookup p.1 = some (law.findtextChild p.2 "") := by
  simp only [lawFieldPairs, List.mem_cons, List.not_mem_nil, or_false] at hp
  rcases hp with rfl | rfl | rfl | rfl | rfl | rfl | rfl | rfl | rfl <;> rfl

/-- `findtext` with default `""` yields `""` when no child carries the tag. -/
theorem findtextChild_of_no_child (elem : XmlElem) (t d : String)
    (h : ∀ c ∈ elem.childrenList, ¬ c.tag = t) :
    elem.findtextChild t d = d := by
  unfold XmlElem.findtextChild
  rw [List.find?_eq_none.mpr]
  intro c hc
  simpa using h c hc

/-- C9: every `<law>` element of a well-formed search response yields a
record containing every key of the fixed field list — a missing child element
yields the empty string for its field rather than an exception or an omitted
key — and the record is still included in the result list. -/
theorem C9_fixed_record_fields (root : XmlElem) :
    (searchLawExtract root).length = (root.findallDesc "law").length ∧
    (∀ law ∈ root.findallDesc "law", projectLaw law ∈ searchLawExtract root) ∧
    (∀ law : XmlElem, ∀ p ∈ lawFieldPairs,
      (projectLaw law).lookup p.1 = some (law.findtextChild p.2 "")) ∧
    (∀ law : XmlElem, ∀ p ∈ lawFieldPairs,
      (∀ c ∈ law.childrenList, ¬ c.tag = p.2) →
      (projectLaw law).lookup p.1 = some "") := by
  refine ⟨?_, ?_, ?_, ?_⟩
  · simp [searchLawExtract]
  · intro law hlaw
    exact List.mem_map_of_mem projectLaw hlaw
  · intro law p hp
    exact projectLaw_lookup law p hp
  · intro law p hp hmiss
    rw [projectLaw_lookup law p hp, findtextChild_of_no_child law p.2 "" hmiss]

/-- C9 witness: in the fixture response, the second `<law>` element has no
children at all, yet it is included in the extracted list and its projected
record still binds the `법령명` key — to the empty string. -/
theorem C9_witness :
    sampleLaw2 ∈ sampleRoot.findallDesc "law" ∧
    projectLaw sampleLaw2 ∈ searchLawExtract sampleRoot ∧
    ("법령명", "법령명한글") ∈ lawFieldPairs ∧
    (projectLaw sampleLaw2).lookup "법령명" = some "" := by
  have hmem : sampleLaw2 ∈ sampleRoot.findallDesc "law" := by
    have h : sampleRoot.findallDesc "law" = [sampleLaw1, sampleLaw2] := rfl
    rw [h]
    simp
  have hp : ("법령명", "법령명한글") ∈ lawFieldPairs := by simp [lawFieldPairs]
  refine ⟨hmem, (C9_fixed_record_fields sampleRoot).2.1 sampleLaw2 hmem, hp,
    (C9_fixed_record_fields sampleRoot).2.2.2 sampleLaw2 ("법령명", "법령명한글")
      hp ?_⟩
  intro c hc
  simp [sampleLaw2, XmlElem.childrenList, XmlForest.toList] at hc

/-- A successful cache lookup comes from an entry of the store with the
looked-up key. -/
theorem cacheLookup_some_mem {κ ν : Type} [DecidableEq κ]
    (c : List (CEntry κ ν)) (now : Nat) (k : κ) (v : ν)
    (h : cacheLookup c now k = some v) :
    ∃ e ∈ c, e.key = k ∧ e.val = v := by
  unfold cacheLookup at h
  cases hf : c.find? (fun e => decide (e.key = k) && decide (now < e.expire)) with
  | none => rw [hf] at h; simp at h
  | some e =>
    rw [hf] at h
    simp only [Option.some.injEq] at h
    have hm := List.mem_of_find?_eq_some hf
    have hp := List.find?_some hf
    simp only [Bool.and_eq_true, decide_eq_true_eq] at hp
    exact ⟨e, hm, hp.1, h⟩

/-- Inserting a well-formed entry preserves law-cache well-formedness. -/
theorem LawCacheWF_insert (c : List (CEntry (String × Int × Int) LawOk))
    (now ttl : Nat) (k : String × Int × Int) (v : LawOk) (hwf : LawCacheWF c)
    (hp : v.page = k.2.1) (hps : v.page_size = k.2.2) :
    LawCacheWF (cacheInsert c now ttl k v) := by
  intro e he
  unfold cacheInsert at he
  rcases List.mem_cons.mp he with rfl | he
  · exact ⟨hp, hps⟩
  · exact hwf e (List.mem_of_mem_filter he)

/-- Inserting a well-formed entry preserves precedent-cache well-formedness. -/
theorem PrecCacheWF_insert
    (c : List (CEntry (String × Int × Int × Option String) PrecOk))
    (now ttl : Nat) (k : String × Int × Int × Option String) (v : PrecOk)
    (hwf : PrecCacheWF c) (hp : v.page = k.2.1) (hps : v.page_size = k.2.2.1) :
    PrecCacheWF (cacheInsert c now ttl k v) := by
  intro e he
  unfold cacheInsert at he
  rcases List.mem_cons.mp he with rfl | he
  · exact ⟨hp, hps⟩
  · exact hwf e (List.mem_of_mem_filter he)

/-- A successful law-search compute result echoes the requested page and
page_size. -/
theorem computeLawSearch_ok (ctx : OpCtx) (query : String)
    (page page_size : Int) (args : Option Arguments) (payload : LawOk)
    (h : (computeLawSearch ctx query page page_size args).1 = .ok payload) :
    payload.page = page ∧ payload.page_size = page_size := by
  simp only [computeLawSearch] at h
  by_cases hk : (get_credentials ctx.env args).LAW_API_KEY = ""
  · rw [if_pos hk] at h
    simp at h
  · rw [if_neg hk] at h
    split at h
    · simp at h
    · simp at h
    · split at h
      · simp at h
      · simp only [OpResult.ok.injEq] at h
        rw [← h]
        exact ⟨rfl, rfl⟩

/-- A successful precedent-search compute result echoes the requested page
and page_size. -/
theorem computePrecSearch_ok (ctx : OpCtx) (query : String)
    (page page_size : Int) (court : Option String) (args : Option Arguments)
    (payload : PrecOk)
    (h : (computePrecSearch ctx query page page_size court args).1 =
      .ok payload) :
    payload.page = page ∧ payload.page_size = page_size := by
  simp only [computePrecSearch] at h
  by_cases hk : (get_credentials ctx.env args).LAW_API_KEY = ""
  · rw [if_pos hk] at h
    simp at h
  · rw [if_neg hk] at h
    split at h
    · simp at h
    · simp at h
    · split at h
      · simp at h
      · simp only [OpResult.ok.injEq] at h
        rw [← h]
        exact ⟨rfl, rfl⟩

/-- A successful `search_law` result echoes page and page_size, provided the
success cache is well-formed. -/
theorem search_law_ok_fields (ctx : OpCtx) (query : String)
    (page page_size : Int) (args : Option Arguments) (s : OpState) (v : LawOk)
    (hwf : LawCacheWF s.law_cache)
    (hres : (search_law ctx query page page_size args s).result = .ok v) :
    v.page = page ∧ v.page_size = page_size := by
  rw [search_law_eq_spec] at hres
  simp only [spec_search_law, spec_get_or_compute] at hres
  cases h1 : cacheLookup s.law_cache ctx.now (query, page, page_size) with
  | some w =>
    rw [h1] at hres
    simp only [OpResult.ok.injEq] at hres
    obtain ⟨e, he, hek, hev⟩ :=
      cacheLookup_some_mem s.law_cache ctx.now (query, page, page_size) w h1
    have hw := hwf e he
    rw [hek] at hw
    rw [← hres, ← hev]
    exact hw
  | none =>
    rw [h1] at hres
    cases h2 : cacheLookup s.failure_cache ctx.now
        (FailKey.law query page page_size) with
    | some msg => rw [h2] at hres; simp at hres
    | none =>
      rw [h2] at hres
      cases hc : (computeLawSearch ctx query page page_size args).1 with
      | ok payload =>
        rw [hc] at hres
        simp only [OpResult.ok.injEq] at hres
        rw [← hres]
        exact computeLawSearch_ok ctx query page page_size args payload hc
      | error msg => rw [hc] at hres; simp at hres

/-- A successful `search_precedent` result echoes page and page_size,
provided the success cache is well-formed. -/
theorem search_precedent_ok_fields (ctx : OpCtx) (query : String)
    (page page_size : Int) (court : Option String) (args : Option Arguments)
    (s : OpState) (v : PrecOk) (hwf : PrecCacheWF s.precedent_cache)
    (hres : (search_precedent ctx query page page_size court args s).result =
      .ok v) :
    v.page = page ∧ v.page_size = page_size := by
  rw [search_precedent_eq_spec] at hres
  simp only [spec_search_precedent, spec_get_or_compute] at hres
  cases h1 : cacheLookup s.precedent_cache ctx.now
      (query, page, page_size, court) with
  | some w =>
    rw [h1] at hres
    simp only [OpResult.ok.injEq] at hres
    obtain ⟨e, he, hek, hev⟩ := cacheLookup_some_mem s.precedent_cache ctx.now
      (query, page, page_size, court) w h1
    have hw := hwf e he
    rw [hek] at hw
    rw [← hres, ← hev]
    exact hw
  | none =>
    rw [h1] at hres
    cases h2 : cacheLookup s.failure_cache ctx.now
        (FailKey.prec query page page_size court) with
    | some msg => rw [h2] at hres; simp at hres
    | none =>
      rw [h2] at hres
      cases hc : (computePrecSearch ctx query page page_size court args).1 with
      | ok payload =>
        rw [hc] at hres
        simp only [OpResult.ok.injEq] at hres
        rw [← hres]
        exact computePrecSearch_ok ctx query page page_size court args payload hc
      | error msg => rw [hc] at hres; simp at hres

/-- `search_law` preserves law-cache well-formedness. -/
theorem search_law_preserves_WF (ctx : OpCtx) (query : String)
    (page page_size : Int) (args : Option Arguments) (s : OpState)
    (hwf : LawCacheWF s.law_cache) :
    LawCacheWF (search_law ctx query page page_size args s).state.law_cache := by
  rw [search_law_eq_spec]
  simp only [spec_search_law, spec_get_or_compute]
  cases h1 : cacheLookup s.law_cache ctx.now (query, page, page_size) with
  | some w => exact hwf
  | none =>
    cases h2 : cacheLookup s.failure_cache ctx.now
        (FailKey.law query page page_size) with
    | some msg => exact hwf
    | none =>
      cases hc : (computeLawSearch ctx query page page_size args).1 with
      | ok payload =>
        have hfields := computeLawSearch_ok ctx query page page_size args
          payload hc
        exact LawCacheWF_insert s.law_cache ctx.now SUCCESS_TTL
          (query, page, page_size) payload hwf hfields.1 hfields.2
      | error msg => exact hwf

/-- `search_precedent` preserves precedent-cache well-formedness. -/
theorem search_precedent_preserves_WF (ctx : OpCtx) (query : String)
    (page page_size : Int) (court : Option String) (args : Option Arguments)
    (s : OpState) (hwf : PrecCacheWF s.precedent_cache) :
    PrecCacheWF (search_precedent ctx query page page_size court args
      s).state.precedent_cache := by
  rw [search_precedent_eq_spec]
  simp only [spec_search_precedent, spec_get_or_compute]
  cases h1 : cacheLookup s.precedent_cache ctx.now
      (query, page, page_size, court) with
  | some w => exact hwf
  | none =>
    cases h2 : cacheLookup s.failure_cache ctx.now
        (FailKey.prec query page page_size court) with
    | some msg => exact hwf
    | none =>
      cases hc : (computePrecSearch ctx query page page_size court args).1 with
      | ok payload =>
        have hfields := computePrecSearch_ok ctx query page page_size court
          args payload hc
        exact PrecCacheWF_insert s.precedent_cache ctx.now SUCCESS_TTL
          (query, page, page_size, court) payload hwf hfields.1 hfields.2
      | error msg => exact hwf

/-- A successful `search_administrative_rule` result echoes page and
page_size (no cache is involved). -/
theorem search_admrul_ok_fields (ctx : OpCtx) (query : String)
    (page page_size : Int) (args : Option Arguments) (s : OpState)
    (v : AdmrulOk)
    (hres : (search_administrative_rule ctx query page page_size
      args s).result = .ok v) :
    v.page = page ∧ v.page_size = page_size := by
  simp only [search_administrative_rule] at hres
  by_cases hk : (get_credentials ctx.env args).LAW_API_KEY = ""
  · rw [if_pos hk] at hres
    simp at hres
  · rw [if_neg hk] at hres
    split at hres
    · simp at hres
    · simp at hres
    · simp at hres
    · simp at hres
    · split at hres
      · simp at hres
      · simp only [OpResult.ok.injEq] at hres
        rw [← hres]
        exact ⟨rfl, rfl⟩

/-- C10: every successful search result echoes the caller's requested
page_size (and page) unmodified — starting from a well-formed success cache,
which the operations preserve — even when `page_size > 50`, in which case the
upstream request still carries `display = 50`. -/
theorem C10_page_size_echo (ctx : OpCtx) (query : String)
    (page page_size : Int) (court : Option String) (args : Option Arguments)
    (s : OpState) :
    (LawCacheWF s.law_cache → ∀ v,
      (search_law ctx query page page_size args s).result = .ok v →
      v.page_size = page_size ∧ v.page = page) ∧
    (LawCacheWF s.law_cache →
      LawCacheWF (search_law ctx query page page_size args s).state.law_cache) ∧
    (PrecCacheWF s.precedent_cache → ∀ v,
      (search_precedent ctx query page page_size court args s).result = .ok v →
      v.page_size = page_size ∧ v.page = page) ∧
    (PrecCacheWF s.precedent_cache →
      PrecCacheWF (search_precedent ctx query page page_size court args
        s).state.precedent_cache) ∧
    (∀ v, (search_administrative_rule ctx query page page_size args s).result =
        .ok v → v.page_size = page_size ∧ v.page = page) ∧
    (50 < page_size →
      ∀ r ∈ (search_law ctx query page page_size args s).requests,
        r.display = some 50) := by
  refine ⟨?_, ?_, ?_, ?_, ?_, ?_⟩
  · intro hwf v hres
    exact (search_law_ok_fields ctx query page page_size args s v hwf
      hres).symm
  · exact search_law_preserves_WF ctx query page page_size args s
  · intro hwf v hres
    exact (search_precedent_ok_fields ctx query page page_size court args s v
      hwf hres).symm
  · exact search_precedent_preserves_WF ctx query page page_size court args s
  · intro v hres
    exact (search_admrul_ok_fields ctx query page page_size args s v
      hres).symm
  · intro h r hr
    rw [search_law_requests_display ctx query page page_size args s r hr,
      min_eq_right (le_of_lt h)]

/-- C10 witness: a law search requesting `page_size = 60` against the fixture
transport succeeds and its result reports `page_size = 60` (while, per C4,
the upstream request was clamped to 50). -/
theorem C10_witness :
    (search_law ctxOkXml "민법" 1 60 none OpState.empty).result =
      .ok ⟨2, 1, 60, [projectLaw sampleLaw1, projectLaw sampleLaw2]⟩ ∧
    (⟨2, 1, 60, [projectLaw sampleLaw1, projectLaw sampleLaw2]⟩ :
      LawOk).page_size = 60 := by
  refine ⟨rfl, ?_⟩
  exact ((C10_page_size_echo ctxOkXml "민법" 1 60 none none OpState.empty).1
    (fun e he => absurd he (List.not_mem_nil e)) _ rfl).1

end LawMcp
